import Mathlib

/-!
Verification of the NetSTAR-Shield scoring engine (Python sources under
src/Scoring Engine/).  The Python modules scoring_logic.py, data_fetch.py and
config.py are shallowly embedded below: JSON payloads become the inductive
type Json, Python numbers become rationals, the mutable scores dictionary
becomes the structure ScoreState, and Python exceptions become an explicit
Except value carrying the kind of exception (AttributeError, TypeError,
KeyError, IndexError, ValueError).  Each scoring function is translated
statement by statement, preserving evaluation order, defaults, truthiness and
the exact set of exceptions each construct can raise, so that the
partial-mutation behaviour of a scorer that dies halfway through is modelled
faithfully.
-/

namespace NetStar

/-- Kinds of Python exception that the embedded code can raise.  The scoring
engine distinguishes them because several try/except blocks catch only some
kinds (e.g. score_cert_health catches ValueError/TypeError only). -/
inductive Err where
  | attr
  | type
  | key
  | index
  | value
  | name
deriving DecidableEq, Repr

/-- JSON values as delivered by the scan endpoints.  Python numbers (int,
float, bool used as int) are modelled as rationals. -/
inductive Json where
  | null
  | bool (b : Bool)
  | num (q : ℚ)
  | str (s : String)
  | arr (xs : List Json)
  | obj (kvs : List (String × Json))
deriving Repr

/-- Python truthiness of a JSON value (None, False, 0, "", [], {} are falsy). -/
def Json.truthy : Json → Bool
  | .null => false
  | .bool b => b
  | .num q => q != 0
  | .str s => s != ""
  | .arr xs => !xs.isEmpty
  | .obj kvs => !kvs.isEmpty

/-- First-match lookup in an association list (Python dict access). -/
def lookupKV (kvs : List (String × Json)) (k : String) : Option Json :=
  match kvs with
  | [] => none
  | (k', v) :: rest => if k' = k then some v else lookupKV rest k

/-- Membership of the character list nd inside hay as a contiguous run
(substring search used by Python's `needle in haystack` on strings). -/
def startsWithList : List Char → List Char → Bool
  | [], _ => true
  | _ :: _, [] => false
  | n :: ns, h :: hs => n = h && startsWithList ns hs

def subListIn (nd : List Char) : List Char → Bool
  | [] => nd.isEmpty
  | c :: rest => startsWithList nd (c :: rest) || subListIn nd rest

/-! Structural character-list implementations of the string operations the
Python code uses (str.startswith, str.endswith, str.lower, str.upper,
str.split(sep), str.strip, slicing, str.replace), so that every embedded
function evaluates by kernel reduction. -/

def strStartsWith (s pre : String) : Bool := startsWithList pre.data s.data

def strEndsWith (s suf : String) : Bool :=
  startsWithList suf.data.reverse s.data.reverse

def strLower (s : String) : String := String.mk (s.data.map Char.toLower)

def strUpper (s : String) : String := String.mk (s.data.map Char.toUpper)

def splitOnCharAux (sep : Char) : List Char → List Char → List (List Char)
  | [], acc => [acc.reverse]
  | c :: rest, acc =>
    if c = sep then acc.reverse :: splitOnCharAux sep rest []
    else splitOnCharAux sep rest (c :: acc)

/-- Python s.split(sep) for a one-character separator. -/
def splitChar (s : String) (sep : Char) : List String :=
  (splitOnCharAux sep s.data []).map String.mk

/-- Python s.strip() (ASCII whitespace). -/
def trimChars (s : String) : String :=
  String.mk (((s.data.dropWhile Char.isWhitespace).reverse.dropWhile
    Char.isWhitespace).reverse)

def strTake (s : String) (n : ℕ) : String := String.mk (s.data.take n)

def strDrop (s : String) (n : ℕ) : String := String.mk (s.data.drop n)

def strTakeRight (s : String) (n : ℕ) : String :=
  String.mk ((s.data.reverse.take n).reverse)

/-- Python d.get(k, default): AttributeError when the receiver is not a dict. -/
def pyGet (j : Json) (k : String) (d : Json) : Except Err Json :=
  match j with
  | .obj kvs => .ok ((lookupKV kvs k).getD d)
  | _ => .error .attr

/-- Python d.get(k) with implicit None default. -/
def pyGetN (j : Json) (k : String) : Except Err Json :=
  pyGet j k .null

/-- Python j[0].  Dicts in the scan payloads are string-keyed, so subscripting
a dict with 0 is a KeyError; subscripting a non-sequence is a TypeError. -/
def pyIndex0 : Json → Except Err Json
  | .arr [] => .error .index
  | .arr (x :: _) => .ok x
  | .str s => if s = "" then .error .index else .ok (.str (strTake s 1))
  | .obj _ => .error .key
  | _ => .error .type

/-- Python j[i] for a literal non-negative index. -/
def pyIndex (j : Json) (i : ℕ) : Except Err Json :=
  match j with
  | .arr xs =>
    match xs[i]? with
    | some x => .ok x
    | none => .error .index
  | .str s =>
    if i < s.length then .ok (.str (strTake (strDrop s i) 1)) else .error .index
  | .obj _ => .error .key
  | _ => .error .type

/-- Python j[-1] (last element). -/
def pyIndexLast : Json → Except Err Json
  | .arr [] => .error .index
  | .arr (x :: xs) => .ok ((x :: xs).getLast (by simp))
  | .str s => if s = "" then .error .index else .ok (.str (strTakeRight s 1))
  | .obj _ => .error .key
  | _ => .error .type

/-- Python len(j): TypeError on values with no length. -/
def pyLen : Json → Except Err ℕ
  | .arr xs => .ok xs.length
  | .str s => .ok s.length
  | .obj kvs => .ok kvs.length
  | _ => .error .type

/-- Python iteration over j (list elements, string characters, dict keys);
TypeError on non-iterables. -/
def pyIter : Json → Except Err (List Json)
  | .arr xs => .ok xs
  | .str s => .ok (s.data.map (fun c => .str (String.mk [c])))
  | .obj kvs => .ok (kvs.map (fun kv => .str kv.1))
  | _ => .error .type

/-- Numeric view of a JSON value for comparisons and arithmetic; Python bool
is an int.  TypeError otherwise (matching e.g. `rcode >= 31` on a string). -/
def pyNum : Json → Except Err ℚ
  | .num q => .ok q
  | .bool b => .ok (if b then 1 else 0)
  | _ => .error .type

/-- Integer view of a JSON value for bitwise operations.  Python rejects
floats in bitwise expressions with a TypeError. -/
def pyBitInt : Json → Except Err ℤ
  | .num q => if q.den = 1 then .ok q.num else .error .type
  | .bool b => .ok (if b then 1 else 0)
  | _ => .error .type

/-- Bit i of a (possibly negative) Python integer, two's-complement view:
(n >> i) & 1 with floor shift. -/
def pyBitTest (n : ℤ) (i : ℕ) : Bool :=
  (Int.fdiv n (2 ^ i)).emod 2 = 1

/-- Python `j == s` for a string literal s (equality never raises; a
non-string value simply compares unequal). -/
def pyEqStr (j : Json) (s : String) : Bool :=
  match j with
  | .str s' => s' = s
  | _ => false

/-- Python `needle in j` for a string needle: substring test on strings,
membership on lists (string == element comparisons), key membership on
dicts, TypeError otherwise. -/
def pyIn (needle : String) (j : Json) : Except Err Bool :=
  match j with
  | .str s => .ok (subListIn needle.data s.data)
  | .arr xs => .ok (xs.any (fun x => pyEqStr x needle))
  | .obj kvs => .ok (kvs.any (fun kv => kv.1 = needle))
  | _ => .error .type

/-- Python str(j), used by score_ip_rep on the ASN field.  Integers render
exactly; other shapes render to strings that cannot collide with the
curated "AS..." identifiers, which is all the scorer observes. -/
def pyStr : Json → String
  | .str s => s
  | .num q => if q.den = 1 then toString q.num else toString q
  | .bool b => if b then "True" else "False"
  | .null => "None"
  | .arr _ => "[...]"
  | .obj _ => "(dict)"

/-- Python int(q): truncation toward zero. -/
def pyTrunc (q : ℚ) : ℤ :=
  if q < 0 then ⌈q⌉ else ⌊q⌋

/-! ### Datetime model

The scoring code strips timezone information before every comparison and
subtraction (scan_date.replace(tzinfo=...) against aware datetimes with the
same offset, and .replace(tzinfo=None) before taking .days), so a datetime is
modelled by its naive clock reading, as a rational number of days since
1970-01-01.  timedelta.days is the floor of the difference. -/

def isLeapYear (y : ℤ) : Bool :=
  y.emod 4 = 0 && (y.emod 100 != 0 || y.emod 400 = 0)

def daysInMonth (y : ℤ) (m : ℕ) : ℕ :=
  if m = 1 || m = 3 || m = 5 || m = 7 || m = 8 || m = 10 || m = 12 then 31
  else if m = 2 then (if isLeapYear y then 29 else 28)
  else 30

/-- Days from 1970-01-01 to year/month/day in the proleptic Gregorian
calendar (Howard Hinnant's civil-days algorithm, as used by Python's
datetime ordinal arithmetic). -/
def daysFromCivil (y : ℤ) (m d : ℕ) : ℤ :=
  let y' : ℤ := if m ≤ 2 then y - 1 else y
  let era : ℤ := Int.fdiv y' 400
  let yoe : ℤ := y' - era * 400
  let mp : ℤ := if m ≤ 2 then (m : ℤ) + 9 else (m : ℤ) - 3
  let doy : ℤ := Int.fdiv (153 * mp + 2) 5 + (d : ℤ) - 1
  let doe : ℤ := yoe * 365 + Int.fdiv yoe 4 - Int.fdiv yoe 100 + doy
  era * 146097 + doe - 719468

def parseNatDigits (s : String) : Option ℕ :=
  if s ≠ "" && s.data.all Char.isDigit then
    some (s.data.foldl (fun a c => a * 10 + (c.toNat - 48)) 0)
  else none

/-- Parse the fractional-second part (1 to 6 digits) as a rational. -/
def parseFrac (s : String) : Option ℚ :=
  if 1 ≤ s.length && s.length ≤ 6 then
    (parseNatDigits s).map (fun n => (n : ℚ) / (10 : ℚ) ^ s.length)
  else none

/-- Parse "HH:MM", validating ranges, used for UTC offsets (value unused by
the scoring code, which strips timezones, but malformed offsets must still
raise ValueError). -/
def parseOffHM (s : String) : Option Unit :=
  match splitChar s ':' with
  | [hh, mm] =>
    match parseNatDigits hh, parseNatDigits mm with
    | some h, some m =>
      if hh.length = 2 && mm.length = 2 && h < 24 && m < 60 then some () else none
    | _, _ => none
  | [hh] =>
    match parseNatDigits hh with
    | some h => if hh.length = 2 && h < 24 then some () else none
    | _ => none
  | _ => none

/-- Parse "HH[:MM[:SS[.ffffff]]]" into seconds-of-day. -/
def parseTimeOfDay (s : String) : Option ℚ :=
  match splitChar s ':' with
  | [hh] =>
    match parseNatDigits hh with
    | some h => if hh.length = 2 && h < 24 then some ((h : ℚ) * 3600) else none
    | none => none
  | [hh, mm] =>
    match parseNatDigits hh, parseNatDigits mm with
    | some h, some m =>
      if hh.length = 2 && mm.length = 2 && h < 24 && m < 60 then
        some ((h : ℚ) * 3600 + (m : ℚ) * 60)
      else none
    | _, _ => none
  | [hh, mm, ssf] =>
    match parseNatDigits hh, parseNatDigits mm with
    | some h, some m =>
      if hh.length = 2 && mm.length = 2 && h < 24 && m < 60 then
        match splitChar ssf '.' with
        | [ss] =>
          match parseNatDigits ss with
          | some sec =>
            if ss.length = 2 && sec < 60 then
              some ((h : ℚ) * 3600 + (m : ℚ) * 60 + (sec : ℚ))
            else none
          | none => none
        | [ss, fr] =>
          match parseNatDigits ss, parseFrac fr with
          | some sec, some f =>
            if ss.length = 2 && sec < 60 then
              some ((h : ℚ) * 3600 + (m : ℚ) * 60 + (sec : ℚ) + f)
            else none
          | _, _ => none
        | _ => none
      else none
    | _, _ => none
  | _ => none

/-- Parse "YYYY-MM-DD" into days since the epoch. -/
def parseDatePart (s : String) : Option ℤ :=
  match splitChar s '-' with
  | [ys, ms, ds] =>
    match parseNatDigits ys, parseNatDigits ms, parseNatDigits ds with
    | some y, some m, some d =>
      if ys.length = 4 && ms.length = 2 && ds.length = 2 &&
         1 ≤ y && y ≤ 9999 && 1 ≤ m && m ≤ 12 && 1 ≤ d && d ≤ daysInMonth (y : ℤ) m then
        some (daysFromCivil (y : ℤ) m d)
      else none
    | _, _, _ => none
  | _ => none

/-- Model of datetime.fromisoformat on the ISO-8601 / RFC-3339 shapes the
scan endpoints emit: "YYYY-MM-DD[<sep>HH:MM[:SS[.ffffff]][+HH[:MM]]]" with
separator 'T' or ' '.  The result is the naive clock reading in days since
the epoch; an offset, when present, must be well-formed but is dropped,
exactly as the calling code drops tzinfo before every use. -/
def fromisoQ (s : String) : Option ℚ :=
  match parseDatePart (strTake s 10) with
  | none => none
  | some days =>
    let rest := strDrop s 10
    if rest = "" then some (days : ℚ)
    else
      let sep := strTake rest 1
      if sep = "T" || sep = " " then
        let body := strDrop rest 1
        let cut := body.data.findIdx (fun c => c = '+' || c = '-')
        let timePart := String.mk (body.data.take cut)
        let offPart := String.mk (body.data.drop cut)
        match parseTimeOfDay timePart with
        | none => none
        | some sec =>
          if offPart = "" then some ((days : ℚ) + sec / 86400)
          else
            match parseOffHM (strDrop offPart 1) with
            | some _ => some ((days : ℚ) + sec / 86400)
            | none => none
      else none

/-- Python datetime.fromisoformat, raising ValueError on malformed input. -/
def fromiso (s : String) : Except Err ℚ :=
  match fromisoQ s with
  | some q => .ok q
  | none => .error .value

/-- The .replace('Z', '+00:00') preprocessing applied by the scorers. -/
def replaceZChars : List Char → List Char
  | [] => []
  | c :: rest =>
    if c = 'Z' then '+' :: '0' :: '0' :: ':' :: '0' :: '0' :: replaceZChars rest
    else c :: replaceZChars rest

def replaceZ (s : String) : String :=
  String.mk (replaceZChars s.data)

/-- timedelta(...).days for the naive difference b - a measured in days:
floor toward negative infinity, as in Python. -/
def tdDays (b a : ℚ) : ℤ := ⌊b - a⌋

/-! ### Configuration (config.py) -/

/-- WEIGHTS from config.py, in dict insertion order. -/
def WEIGHTS : List (String × ℚ) :=
  [("Connection_Security", 14), ("Certificate_Health", 12),
   ("DNS_Record_Health", 10), ("Domain_Reputation", 20),
   ("WHOIS_Pattern", 6), ("IP_Reputation", 8),
   ("Credential_Safety", 12), ("Content_Safety", 18)]

/-- API_ENDPOINTS from config.py. -/
def API_ENDPOINTS : List String :=
  ["cert", "dns", "hval", "mail", "method", "rdap", "firewall", "dead",
   "parked", "ip-info", "crtsh", "redirect", "webpage-inspect"]

/-- MAL_TLDS_SLIM from config.py. -/
def MAL_TLDS_SLIM : List String :=
  ["ac", "ai", "app", "at", "autos", "biz", "bond", "br", "bz", "ca", "cc",
   "cfd", "claims", "click", "cn", "coupons", "courses",
   "cx", "cy", "cyou", "dad", "de", "digital", "es", "fan",
   "finance", "fit", "fr", "fun", "gay", "gd", "gg", "help", "hk",
   "icu", "id", "im", "in", "info", "ink", "io", "is", "life", "live",
   "locker", "me", "mobi", "money", "ms", "my", "network", "ng",
   "nl", "online", "pl", "pro", "pw", "qpon", "rest", "rocks",
   "ru", "sbs", "sh", "shop", "site", "so", "st", "store", "su",
   "support", "tel", "to", "today", "top", "tr", "tv", "ua",
   "us", "vip", "wiki", "world", "ws", "xn--q9jyb4c", "xyz"]

/-- HIGH_RISK_COUNTRIES from config.py. -/
def HIGH_RISK_COUNTRIES : List String :=
  ["RU", "CN", "KP", "IR", "NG", "RO", "UA", "BY", "VN", "PK"]

/-- BULLETPROOF_ASNS from config.py. -/
def BULLETPROOF_ASNS : List String :=
  ["AS49981", "AS44477", "AS206898", "AS48693", "AS9009", "AS16276", "AS14061"]

/-- COMMON_CAS from config.py. -/
def COMMON_CAS : List String :=
  ["Let's Encrypt", "DigiCert", "Sectigo", "GlobalSign", "Comodo",
   "GoDaddy", "Amazon", "Google Trust Services", "Entrust",
   "Certum", "SSL.com", "ZeroSSL", "Buypass", "IdenTrust",
   "Starfield", "QuoVadis", "SwissSign", "HARICA"]

/-! ### The scores dictionary (ScoreState)

calculate_security_score always creates the seven base categories; the
Content_Safety key is present only conditionally, hence an Option field. -/

structure ScoreState where
  connectionSecurity : ℚ
  certificateHealth : ℚ
  dnsRecordHealth : ℚ
  domainReputation : ℚ
  whoisPattern : ℚ
  ipReputation : ℚ
  credentialSafety : ℚ
  contentSafety : Option ℚ
deriving DecidableEq, Repr

def initScores (hasContent : Bool) : ScoreState :=
  { connectionSecurity := 100, certificateHealth := 100,
    dnsRecordHealth := 100, domainReputation := 100,
    whoisPattern := 100, ipReputation := 100, credentialSafety := 100,
    contentSafety := if hasContent then some 100 else none }

def ScoreState.subConn (st : ScoreState) (n : ℚ) : ScoreState :=
  { st with connectionSecurity := st.connectionSecurity - n }

def ScoreState.subCert (st : ScoreState) (n : ℚ) : ScoreState :=
  { st with certificateHealth := st.certificateHealth - n }

def ScoreState.subDNS (st : ScoreState) (n : ℚ) : ScoreState :=
  { st with dnsRecordHealth := st.dnsRecordHealth - n }

def ScoreState.subDR (st : ScoreState) (n : ℚ) : ScoreState :=
  { st with domainReputation := st.domainReputation - n }

def ScoreState.subWhois (st : ScoreState) (n : ℚ) : ScoreState :=
  { st with whoisPattern := st.whoisPattern - n }

def ScoreState.subIP (st : ScoreState) (n : ℚ) : ScoreState :=
  { st with ipReputation := st.ipReputation - n }

def ScoreState.subCred (st : ScoreState) (n : ℚ) : ScoreState :=
  { st with credentialSafety := st.credentialSafety - n }

/-- scores['Content_Safety'] -= n: a KeyError when the key is absent. -/
def ScoreState.subCS (st : ScoreState) (n : ℚ) : Except Err ScoreState :=
  match st.contentSafety with
  | some v => .ok { st with contentSafety := some (v - n) }
  | none => .error .key

/-- The result type of one embedded scorer invocation: the Python function
either returns None or raises, and in both cases the mutations it made to
the shared scores dict up to that point survive. -/
abbrev ScorerOut := Except Err Unit × ScoreState

/-- Sequencing helper: run f on the state unless an exception is pending. -/
def thenDo (r : ScorerOut) (f : ScoreState → ScorerOut) : ScorerOut :=
  match r with
  | (.ok _, st) => f st
  | (.error e, st) => (.error e, st)

/-- Bind a Python expression that can raise: on error the state is left as
it was at the raise point. -/
def withVal {α : Type} (v : Except Err α) (st : ScoreState)
    (f : α → ScorerOut) : ScorerOut :=
  match v with
  | .ok a => f a
  | .error e => (.error e, st)

def Json.isArr : Json → Bool
  | .arr _ => true
  | _ => false

/-! ### score_cert_health (scoring_logic.py lines 72-184) -/

/-- The try block (lines 79-118).  It catches only ValueError/TypeError, so
an AttributeError (e.g. .get on a non-dict, .replace on a non-string) still
propagates.  Outcomes: re-raised exception; early return with the fixed
deduction already applied (ok none); or the parsed not_after/not_before
clock values plus the verification sub-object (ok some). -/
def certTry (data : Json) (st : ScoreState) :
    Except Err (Option (ℚ × ℚ × Json)) × ScoreState :=
  match pyGet data "connection" (.obj []) with
  | .error e => (.error e, st)
  | .ok _connection =>
  match pyGet data "verification" (.obj []) with
  | .error e => (.error e, st)
  | .ok verif =>
  match pyGet data "certs" (.arr []) with
  | .error e => (.error e, st)
  | .ok certList =>
  if !certList.truthy || !certList.isArr then (.ok none, st.subCert 50)
  else
  match pyIndex0 certList with
  | .error e => (.error e, st)
  | .ok certObj =>
  match pyGetN certObj "not_after" with
  | .error e => (.error e, st)
  | .ok naj =>
  match pyGetN certObj "not_before" with
  | .error e => (.error e, st)
  | .ok nbj =>
  if !naj.truthy || !nbj.truthy then (.ok none, st.subCert 9)
  else
  match naj with
  | .str sa =>
    (match fromiso (replaceZ sa) with
     | .error _ => (.ok none, st.subCert 8)
     | .ok ta =>
       match nbj with
       | .str sb =>
         (match fromiso (replaceZ sb) with
          | .error _ => (.ok none, st.subCert 8)
          | .ok tb => (.ok (some (ta, tb, verif)), st))
       | _ => (.error .attr, st))
  | _ => (.error .attr, st)

/-- Binary digit count, exact for every n < 2^128 (the numerators and
denominators reaching it here stay far below that). -/
def bitLenAux : ℕ → ℕ → ℕ
  | 0, _ => 0
  | fuel + 1, n => if n = 0 then 0 else bitLenAux fuel (n / 2) + 1

def bitLen (n : ℕ) : ℕ := bitLenAux 128 n

def qpow2 (e : ℤ) : ℚ :=
  if 0 ≤ e then ((2 ^ e.toNat : ℕ) : ℚ) else 1 / ((2 ^ (-e).toNat : ℕ) : ℚ)

/-- ⌊log₂ a⌋ of a positive rational: the bit-length difference of numerator
and denominator over- or undershoots by at most one, fixed by one
comparison. -/
def qFloorLog2 (a : ℚ) : ℤ :=
  let g : ℤ := (bitLen a.num.natAbs : ℤ) - (bitLen a.den : ℤ)
  if a < qpow2 g then g - 1 else g

/-- Round to the nearest IEEE-754 binary64 value (53-bit significand, ties
to even).  Overflow and subnormals are not modelled: the rounding is faithful
for every magnitude in the binary64 normal range, which covers every value
the scoring computations produce. -/
def rnd53 (x : ℚ) : ℚ :=
  if x = 0 then 0
  else
    let a := |x|
    let e : ℤ := qFloorLog2 a - 52
    let r : ℚ := a / qpow2 e
    let f : ℤ := ⌊r⌋
    let frac : ℚ := r - (f : ℚ)
    let m : ℤ := if frac < 1 / 2 then f
                 else if 1 / 2 < frac then f + 1
                 else if f % 2 = 0 then f else f + 1
    (if x < 0 then -(m : ℚ) else (m : ℚ)) * qpow2 e

/-- The in-band linear gradient int(30 * ((30 - d) / 30)) (lines 143-147),
as Python evaluates it: 30 - d in exact integer arithmetic, the true
division and the multiplication by the (exactly representable) int 30 each
rounded to the nearest binary64, and int() truncating toward zero.  For
30 - d up to 122 this equals 30 - d, but not beyond: the first drop is at
30 - d = 123, where the rounded product lies just below 123. -/
def certGradient (d : ℤ) : ℚ :=
  ((pyTrunc (rnd53 ((30 : ℚ) * rnd53 (((30 - d : ℤ) : ℚ) / 30))) : ℤ) : ℚ)

/-- The complete two-band expiration deduction of score_cert_health: zero
beyond 30 days remaining, the linear gradient within the band. -/
def certExpirationDeduction (d : ℤ) : ℚ :=
  if d > 30 then 0 else certGradient d

/-- Lines 120-184: validity checks, gradient, verification flags,
revocation checks. -/
def certMain (verif : Json) (scanDate ta tb : ℚ) (st : ScoreState) : ScorerOut :=
  let st := if scanDate > ta then st.subCert 50 else st
  let st := if scanDate < tb then st.subCert 50 else st
  let d := tdDays ta scanDate
  let st := if d > 30 then st else st.subCert (certGradient d)
  match pyGet verif "hostname_matches" (.bool false) with
  | .error e => (.error e, st)
  | .ok hm =>
  match pyGet verif "chain_verified" (.bool false) with
  | .error e => (.error e, st)
  | .ok cv =>
  let st := if !hm.truthy then st.subCert 10 else st
  let st := if !cv.truthy then st.subCert 10 else st
  match pyGet verif "crlite_revoked" (.bool false) with
  | .error e => (.error e, st)
  | .ok rev =>
  match pyGet verif "ocsp_status" (.str "") with
  | .error e => (.error e, st)
  | .ok ocspStatus =>
  let st := if rev.truthy then st.subCert 40
            else if pyEqStr ocspStatus "revoked" then st.subCert 40 else st
  match pyGet verif "ocsp_checked" (.bool false) with
  | .error e => (.error e, st)
  | .ok oc =>
  match pyGet verif "ocsp_stapled" (.bool false) with
  | .error e => (.error e, st)
  | .ok ostp =>
  let st := if oc.truthy && !ostp.truthy && !(pyEqStr ocspStatus "revoked")
            then st.subCert 5 else st
  (.ok (), st)

def score_cert_health (data : Json) (scanDate : ℚ) (st : ScoreState) : ScorerOut :=
  match certTry data st with
  | (.error e, st') => (.error e, st')
  | (.ok none, st') => (.ok (), st')
  | (.ok (some (ta, tb, verif)), st') => certMain verif scanDate ta tb st'

/-! ### score_cert_health_ct (lines 187-224) -/

/-- The second try block (lines 217-224), catching TypeError and
AttributeError: issuer extraction and the unusual-CA deduction. -/
def certCTIssuer (newest : Json) (st : ScoreState) : ScorerOut :=
  match pyGetN newest "issuer_name" with
  | .error _ => (.ok (), st)
  | .ok v1 =>
  match (if v1.truthy then Except.ok v1 else pyGetN newest "issuer_cn") with
  | .error _ => (.ok (), st)
  | .ok v2 =>
  let issuer := if v1.truthy then v1 else (if v2.truthy then v2 else .str "")
  if issuer.truthy then
    match issuer with
    | .str s =>
      if !(COMMON_CAS.any (fun ca => subListIn (strLower ca).data (strLower s).data)) then
        (.ok (), st.subCert 5)
      else (.ok (), st)
    | _ => (.ok (), st)
  else (.ok (), st)

def score_cert_health_ct (crtshData : Json) (nowDate : ℚ) (st : ScoreState) : ScorerOut :=
  if !crtshData.truthy then (.ok (), st)
  else
  match (match crtshData with
         | .arr xs => Except.ok (Json.arr xs)
         | _ => pyGet crtshData "certs" (.arr [])) with
  | .error e => (.error e, st)
  | .ok certs =>
  if !certs.truthy then (.ok (), st)
  else
  match pyLen certs with
  | .error e => (.error e, st)
  | .ok n =>
  let st := if n = 1 then st.subCert 10 else st
  -- First try block (lines 203-214), catching ValueError/TypeError/KeyError.
  -- If certs[0] raises a caught kind, the local `newest` stays unbound and
  -- the second try dies on a NameError, which nothing catches.
  match pyIndex0 certs with
  | .error e =>
    if e = .key || e = .type then (.error .name, st) else (.error e, st)
  | .ok newest =>
  match pyGetN newest "not_before" with
  | .error e => (.error e, st)
  | .ok v1 =>
  match (if v1.truthy then Except.ok v1 else
         match pyGetN newest "entry_timestamp" with
         | .error e => Except.error e
         | .ok v2 => Except.ok (if v2.truthy then v2 else .str "")) with
  | .error e => (.error e, st)
  | .ok issued =>
  if issued.truthy then
    match issued with
    | .str s =>
      (match fromiso (replaceZ s) with
       | .error _ => certCTIssuer newest st
       | .ok t =>
         let ds := tdDays nowDate t
         let st := if ds < 7 then st.subCert 20 else st
         certCTIssuer newest st)
    | _ => (.error .attr, st)
  else certCTIssuer newest st

/-! ### score_dns_rec_health (lines 227-271) -/

def score_dns_rec_health (dnsData rdapScan : Json) (st : ScoreState) : ScorerOut :=
  match pyGet dnsData "rcode" (.num 0) with
  | .error e => (.error e, st)
  | .ok rcodeJ =>
  match pyGet dnsData "a" (.arr []) with
  | .error e => (.error e, st)
  | .ok aJ =>
  match pyLen aJ with
  | .error e => (.error e, st)
  | .ok aCount =>
  match pyGet dnsData "aaaa" (.arr []) with
  | .error e => (.error e, st)
  | .ok aaaaJ =>
  match pyLen aaaaJ with
  | .error e => (.error e, st)
  | .ok aaaaCount =>
  match pyGet dnsData "cname" (.arr []) with
  | .error e => (.error e, st)
  | .ok _cname =>
  match pyNum rcodeJ with
  | .error e => (.error e, st)
  | .ok rc =>
  let st := if rc ≥ 31 then st
            else if rc ≥ 8 then st.subDNS 10
            else if rc ≥ 1 then st.subDNS 15
            else st
  let st := if aCount < 2 then st.subDNS 10 else st
  let st := if aaaaCount = 0 then st.subDNS 5
            else if aaaaCount < 2 then st.subDNS 5 else st
  let _ := rdapScan
  (.ok (), st)

/-! ### score_conn_sec (lines 273-394) -/

/-- Python `j == n` for a numeric literal (never raises; bool compares as
0/1, non-numbers compare unequal). -/
def pyEqNum (j : Json) (n : ℚ) : Bool :=
  match j with
  | .num q => q = n
  | .bool b => (if b then (1 : ℚ) else 0) = n
  | _ => false

/-- Python j[:-1] as a list of items (list slice, string slice of
characters); slicing anything else is a TypeError. -/
def pySliceDropLast : Json → Except Err (List Json)
  | .arr xs => .ok xs.dropLast
  | .str s => .ok (s.data.dropLast.map (fun c => Json.str (String.mk [c])))
  | _ => .error .type

/-- Lines 364-370: scan the non-final hops for the first plain-HTTP url. -/
def findHttpHop : List Json → Except Err Bool
  | [] => .ok false
  | hop :: rest =>
    match pyGet hop "url" (.str "") with
    | .error e => .error e
    | .ok u =>
      match u with
      | .str s => if strStartsWith s "http://" then .ok true else findHttpHop rest
      | _ => .error .attr

def validSchemeChar (c : Char) : Bool :=
  c.isAlphanum || c = '+' || c = '-' || c = '.'

/-- Model of urllib.parse.urlparse(u).hostname: the authority component is
present only when the string (after an optional valid scheme prefix) starts
with "//"; the hostname is the authority lower-cased, with userinfo, port
and IPv6 brackets stripped; an empty hostname is None. -/
def urlHostname (u : String) : Option String :=
  let netlocTail : Option String :=
    if strStartsWith u "//" then some (strDrop u 2)
    else
      let i := u.data.findIdx (fun c => c = ':')
      if i < u.data.length then
        let scheme := String.mk (u.data.take i)
        let rest := String.mk (u.data.drop (i + 1))
        if scheme ≠ "" && scheme.data.all validSchemeChar &&
           (scheme.data.headD ' ').isAlpha && strStartsWith rest "//" then
          some (strDrop rest 2)
        else none
      else none
  match netlocTail with
  | none => none
  | some tail =>
    let netloc := String.mk (tail.data.takeWhile (fun c => c ≠ '/' && c ≠ '?' && c ≠ '#'))
    let hostport := (splitChar netloc '@').getLastD netloc
    let host :=
      if strStartsWith hostport "[" then
        String.mk ((strDrop hostport 1).data.takeWhile (fun c => c ≠ ']'))
      else String.mk (hostport.data.takeWhile (fun c => c ≠ ':'))
    if strLower host = "" then none else some (strLower host)

/-- Python s.lstrip("www."): removes the leading run of characters drawn
from the set (w, .), not the literal prefix "www.". -/
def lstripWDot (s : String) : String :=
  String.mk (s.data.dropWhile (fun c => c = 'w' || c = '.'))

/-- Lines 379-394: the final-domain-differs check, guarded by a catch-all
try/except (any exception means no deduction, so non-string operands
silently yield false). -/
def domainHopDeduct (inputDomain finalUrl : Json) : Bool :=
  if inputDomain.truthy && finalUrl.truthy then
    match inputDomain, finalUrl with
    | .str din, .str fu =>
      let fd := (urlHostname fu).getD ""
      let ci := lstripWDot (strLower din)
      let cf := lstripWDot (strLower fd)
      ci ≠ "" && cf ≠ "" && ci ≠ cf &&
        !(strEndsWith cf ("." ++ ci)) && !(strEndsWith ci ("." ++ cf))
    | _, _ => false
  else false

/-- Lines 287-302: the HTTPS-enforcement check on the final hop.  A 403 is
exempt; an empty chain (status -1) is a small deduction; otherwise the
status must be 2xx (200..206) over https.  The `or` short-circuits, so the
url is only touched when the status range test passes. -/
def connSecStatusPhase (finalStatus finalUrl : Json) (st : ScoreState) : ScorerOut :=
  if pyEqNum finalStatus 403 then (.ok (), st)
  else if pyEqNum finalStatus (-1) then (.ok (), st.subConn 10)
  else
    match pyNum finalStatus with
    | .error e => (.error e, st)
    | .ok fs =>
      if !(200 ≤ fs) then (.ok (), st.subConn 45)
      else if !(fs < 207) then (.ok (), st.subConn 45)
      else
        match finalUrl with
        | .str u => if !(strStartsWith u "https") then (.ok (), st.subConn 45) else (.ok (), st)
        | _ => (.error .attr, st)

/-- Lines 304-314: cipher strength bands. -/
def connSecCipherPhase (tlsCipher : Json) (st : ScoreState) : ScorerOut :=
  match pyIn "TLS_AES" tlsCipher with
  | .error e => (.error e, st)
  | .ok b1 =>
  if b1 then (.ok (), st) else
  match pyIn "TLS_CHACHA20" tlsCipher with
  | .error e => (.error e, st)
  | .ok b2 =>
  if b2 then (.ok (), st) else
  match pyIn "TLS_ECDHE_RSA" tlsCipher with
  | .error e => (.error e, st)
  | .ok b3 =>
  if b3 then (.ok (), st.subConn 10) else (.ok (), st.subConn 45)

/-- Lines 316-352: critical (HSTS=1, CSP=2, XCTO=4) and advanced
(COOP=16, CORP=32, COEP=64) header-flag analysis. -/
def connSecHeadersPhase (secFlagJ : Json) (st : ScoreState) : ScorerOut :=
  match pyBitInt secFlagJ with
  | .error e => (.error e, st)
  | .ok s =>
  let missing : ℕ := (if !pyBitTest s 0 then 1 else 0) +
                     (if !pyBitTest s 1 then 1 else 0) +
                     (if !pyBitTest s 2 then 1 else 0)
  let st := if missing = 0 then st
            else if missing = 1 then st.subConn 20
            else st.subConn 40
  let st := if !(pyBitTest s 4 && pyBitTest s 5 && pyBitTest s 6)
            then st.subConn 5 else st
  (.ok (), st)

/-- Lines 359-394: the redirect-chain analysis block (runs only when the
chain has more than one hop). -/
def connSecRedirectPhase (hvalData headChain finalUrl : Json) (st : ScoreState) : ScorerOut :=
  match pyLen headChain with
  | .error e => (.error e, st)
  | .ok n =>
  if !(n > 1) then (.ok (), st) else
  match pyGet hvalData "item" (.str "") with
  | .error e => (.error e, st)
  | .ok inputDomain =>
  match pySliceDropLast headChain with
  | .error e => (.error e, st)
  | .ok hops =>
  match findHttpHop hops with
  | .error e => (.error e, st)
  | .ok found =>
  let st := if found then st.subConn 10 else st
  let st := if n > 3 then st.subConn 5 else st
  let st := if domainHopDeduct inputDomain finalUrl then st.subConn 15 else st
  (.ok (), st)

def score_conn_sec (hvalData certData : Json) (st : ScoreState) : ScorerOut :=
  match pyGet hvalData "security" (.num 0) with
  | .error e => (.error e, st)
  | .ok secFlagJ =>
  match pyGet hvalData "head" (.arr []) with
  | .error e => (.error e, st)
  | .ok headChain =>
  match pyGet certData "connection" (.obj []) with
  | .error e => (.error e, st)
  | .ok connJ =>
  match pyGetN connJ "tls_version" with
  | .error e => (.error e, st)
  | .ok tlsVersion =>
  match pyGetN connJ "cipher_suite" with
  | .error e => (.error e, st)
  | .ok _cipherSuite =>
  match (if headChain.truthy then
           match pyIndexLast headChain with
           | .error e => Except.error e
           | .ok lastHop => pyGetN lastHop "status"
         else Except.ok (Json.num (-1))) with
  | .error e => (.error e, st)
  | .ok finalStatus =>
  match (if headChain.truthy then
           match pyIndexLast headChain with
           | .error e => Except.error e
           | .ok lastHop => pyGet lastHop "url" (.str "")
         else Except.ok (Json.str "")) with
  | .error e => (.error e, st)
  | .ok finalUrl =>
  match (if headChain.truthy then
           match pyIndexLast headChain with
           | .error e => Except.error e
           | .ok lastHop =>
             match pyGetN lastHop "tls" with
             | .error e => Except.error e
             | .ok t =>
               if t.truthy then pyGet lastHop "tls" (.str "NONE")
               else Except.ok (Json.str "NONE")
         else Except.ok (Json.str "NONE")) with
  | .error e => (.error e, st)
  | .ok tlsCipher =>
  thenDo (connSecStatusPhase finalStatus finalUrl st) fun st =>
  thenDo (connSecCipherPhase tlsCipher st) fun st =>
  thenDo (connSecHeadersPhase secFlagJ st) fun st =>
  let st := if !(pyEqStr tlsVersion "TLS 1.2" || pyEqStr tlsVersion "TLS 1.3")
            then st.subConn 20 else st
  connSecRedirectPhase hvalData headChain finalUrl st

/-! ### score_dom_rep (lines 397-535) -/

/-- next((part.split('=')[1] for part in s.split(';') if
part.strip().startswith(tag)), default-elsewhere). -/
def extractTagVal (s : String) (tag : String) : Option String :=
  (splitChar s ';').findSome? (fun part =>
    if strStartsWith (trimChars part) tag then some ((splitChar part '=').getD 1 "")
    else none)

/-- any(needle in s for s in elems) combined with next(s for s in elems if
needle in s): first element containing the needle, with the iteration's
exceptions. -/
def firstContaining (needle : String) : List Json → Except Err (Option Json)
  | [] => .ok none
  | j :: rest =>
    match pyIn needle j with
    | .error e => .error e
    | .ok true => .ok (some j)
    | .ok false => firstContaining needle rest

/-- Lines 437-455: SPF policy classification. -/
def spfStep (spfJ : Json) (st : ScoreState) : ScorerOut :=
  if !spfJ.truthy then (.ok (), st.subDR 10)
  else
    match pyIter spfJ with
    | .error e => (.error e, st)
    | .ok elems =>
    match firstContaining "v=spf1" elems with
    | .error e => (.error e, st)
    | .ok none => (.ok (), st.subDR 10)
    | .ok (some sElem) =>
      match pyIn "-all" sElem with
      | .error e => (.error e, st)
      | .ok hard =>
      if hard then (.ok (), st)
      else match pyIn "~all" sElem with
      | .error e => (.error e, st)
      | .ok soft =>
      if soft then (.ok (), st.subDR 5)
      else match pyIn "?all" sElem with
      | .error e => (.error e, st)
      | .ok q1 =>
      if q1 then (.ok (), st.subDR 12)
      else match pyIn "+all" sElem with
      | .error e => (.error e, st)
      | .ok q2 =>
      if q2 then (.ok (), st.subDR 12) else (.ok (), st)

/-- Lines 457-469: DKIM checks. -/
def dkimStep (dkimJ : Json) (st : ScoreState) : ScorerOut :=
  if !dkimJ.truthy then (.ok (), st.subDR 15)
  else
    match pyLen dkimJ with
    | .error e => (.error e, st)
    | .ok n =>
    if n = 1 then
      match pyIndex0 dkimJ with
      | .error e => (.error e, st)
      | .ok d0 =>
        let record := match d0 with
          | .str s => strLower s
          | _ => ""
        if subListIn "default".data record.data || record = "" then
          (.ok (), st.subDR 5)
        else (.ok (), st)
    else (.ok (), st)

/-- Lines 400-469: the mail-scan portion of score_dom_rep. -/
def domRepMail (mailData : Json) (st : ScoreState) : ScorerOut :=
  match pyGet mailData "mx" (.arr []) with
  | .error e => (.error e, st)
  | .ok mxJ =>
  match pyLen mxJ with
  | .error e => (.error e, st)
  | .ok mxCount =>
  let st := if mxCount = 0 then st.subDR 20
            else if mxCount < 2 then st.subDR 5 else st
  match pyGet mailData "dmarc" (.arr []) with
  | .error e => (.error e, st)
  | .ok dmarcJ =>
  thenDo
    (if !dmarcJ.truthy then (.ok (), st.subDR 22)
     else
       match pyIndex0 dmarcJ with
       | .error e => (.error e, st)
       | .ok d0 =>
       match d0 with
       | .str d0s =>
         let policy := (extractTagVal d0s "p=").getD "none"
         let st := if trimChars policy ≠ "reject" && trimChars policy ≠ "quarantine"
                   then st.subDR 7 else st
         let sp := (extractTagVal d0s "sp=").getD policy
         let st := if trimChars sp ≠ "reject" && trimChars sp ≠ "quarantine"
                   then st.subDR 2 else st
         (.ok (), st)
       | _ => (.error .attr, st)) fun st =>
  match pyGet mailData "spf" (.arr []) with
  | .error e => (.error e, st)
  | .ok spfJ =>
  thenDo (spfStep spfJ st) fun st =>
  match pyGet mailData "dkim" (.arr []) with
  | .error e => (.error e, st)
  | .ok dkimJ =>
  dkimStep dkimJ st

/-- Lines 471-494: the method-scan portion (CONNECT=128, PATCH=16;
TRACE=64, DELETE=32, PUT=8). -/
def domRepMethod (methodData : Json) (st : ScoreState) : ScorerOut :=
  match pyGet methodData "flag" (.num 0) with
  | .error e => (.error e, st)
  | .ok flagJ =>
  match pyBitInt flagJ with
  | .error e => (.error e, st)
  | .ok f =>
  let st := if pyBitTest f 7 || pyBitTest f 4 then st.subDR 7 else st
  let st := if pyBitTest f 6 || pyBitTest f 5 || pyBitTest f 3 then st.subDR 20 else st
  (.ok (), st)

/-- The nameserver-vendor set built at lines 514-517 (only its size is
ever observed). -/
def collectProviders : List Json → List String → List String
  | [], acc => acc
  | j :: rest, acc =>
    match j with
    | .str s =>
      let parts := splitChar s '.'
      if parts.length ≥ 2 then
        let p := parts.getD (parts.length - 2) ""
        collectProviders rest (if acc.contains p then acc else acc ++ [p])
      else collectProviders rest acc
    | _ => collectProviders rest acc

/-- Lines 496-535: the RDAP portion of score_dom_rep.  Note the unguarded
rdap_data[0]: the payload is assumed to be the one-element-list form. -/
def domRepRdap (rdapData : Json) (st : ScoreState) : ScorerOut :=
  match pyIndex0 rdapData with
  | .error e => (.error e, st)
  | .ok r0 =>
  match pyGet r0 "nameserver" (.arr []) with
  | .error e => (.error e, st)
  | .ok nsJ =>
  match pyLen nsJ with
  | .error e => (.error e, st)
  | .ok nsCount =>
  let st := if nsCount < 2 then st.subDR 15
            else if nsCount = 2 then st.subDR 2 else st
  match pyIter nsJ with
  | .error e => (.error e, st)
  | .ok nss =>
  let providers := collectProviders nss []
  let st := if providers.length = 1 && nsCount ≥ 2 then st.subDR 2 else st
  match pyIndex0 rdapData with
  | .error e => (.error e, st)
  | .ok r0b =>
  match pyGet r0b "host" (.str "") with
  | .error e => (.error e, st)
  | .ok hostJ =>
  match hostJ with
  | .str h =>
    let tld := (splitChar h '.').getLastD ""
    if MAL_TLDS_SLIM.contains tld then (.ok (), st.subDR 10) else (.ok (), st)
  | _ => (.error .attr, st)

def score_dom_rep (mailData methodData rdapData : Json) (st : ScoreState) : ScorerOut :=
  thenDo (domRepMail mailData st) fun st =>
  thenDo (domRepMethod methodData st) fun st =>
  domRepRdap rdapData st

/-! ### score_cred_safety (lines 599-614) -/

def score_cred_safety (certData hvalData : Json) (st : ScoreState) : ScorerOut :=
  match pyGet certData "connection" (.obj []) with
  | .error e => (.error e, st)
  | .ok connJ =>
  match pyGetN connJ "tls_version" with
  | .error e => (.error e, st)
  | .ok tlsVersion =>
  match pyGet hvalData "security" (.num 0) with
  | .error e => (.error e, st)
  | .ok secFlagJ =>
  let st := if !(pyEqStr tlsVersion "TLS 1.2" || pyEqStr tlsVersion "TLS 1.3")
            then st.subCred 50 else st
  match pyBitInt secFlagJ with
  | .error e => (.error e, st)
  | .ok s =>
  let st := if !pyBitTest s 0 then st.subCred 20 else st
  (.ok (), st)

/-! ### score_ip_rep (lines 616-654) -/

def score_ip_rep (firewallData ipinfoData : Json) (st : ScoreState) : ScorerOut :=
  match (if firewallData.truthy then pyGet firewallData "Block" (.bool false)
         else Except.ok (Json.bool false)) with
  | .error e => (.error e, st)
  | .ok blocked =>
  if blocked.truthy then (.ok (), st.subIP 100)
  else if !ipinfoData.truthy then (.ok (), st)
  else
  match pyGet ipinfoData "country_code" (.str "") with
  | .error e => (.error e, st)
  | .ok c1 =>
  match (if c1.truthy then Except.ok c1 else pyGet ipinfoData "country" (.str "")) with
  | .error e => (.error e, st)
  | .ok country =>
  match country with
  | .str cs =>
    let st := if HIGH_RISK_COUNTRIES.contains (strUpper cs) then st.subIP 15 else st
    match pyGet ipinfoData "asn" (.str "") with
    | .error e => (.error e, st)
    | .ok a1 =>
    match (if a1.truthy then Except.ok a1 else pyGet ipinfoData "as_number" (.str "")) with
    | .error e => (.error e, st)
    | .ok asn =>
    let asnStr := strUpper (pyStr asn)
    let asnStr := if strStartsWith asnStr "AS" then asnStr else "AS" ++ asnStr
    let st := if BULLETPROOF_ASNS.contains asnStr then st.subIP 10 else st
    match pyGet ipinfoData "hostname" (.str "") with
    | .error e => (.error e, st)
    | .ok p1 =>
    match (if p1.truthy then Except.ok p1 else pyGet ipinfoData "ptr" (.str "")) with
    | .error e => (.error e, st)
    | .ok p2 =>
    match (if p2.truthy then Except.ok p2 else pyGet ipinfoData "reverse" (.str "")) with
    | .error e => (.error e, st)
    | .ok ptr =>
    if !ptr.truthy then (.ok (), st.subIP 5) else (.ok (), st)
  | _ => (.error .attr, st)

/-! ### score_whois_pattern (lines 657-765) -/

def clientLocks : List String :=
  ["client delete prohibited", "client transfer prohibited", "client update prohibited"]

def serverLocks : List String :=
  ["server delete prohibited", "server transfer prohibited", "server update prohibited"]

/-- Lines 688-698: one -5 per absent lock status. -/
def lockChecks (locks : List String) (statusJ : Json) (st : ScoreState) : ScorerOut :=
  match locks with
  | [] => (.ok (), st)
  | l :: rest =>
    match pyIn l statusJ with
    | .error e => (.error e, st)
    | .ok present =>
      lockChecks rest statusJ (if !present then st.subWhois 5 else st)

/-- Lines 701-706: scan the events list for the registration event. -/
def findRegDate : List Json → Except Err (Option Json)
  | [] => .ok none
  | ev :: rest =>
    match pyGetN ev "eventAction" with
    | .error e => .error e
    | .ok act =>
      if pyEqStr act "registration" then
        match pyGetN ev "eventDate" with
        | .error e => .error e
        | .ok d => .ok (some d)
      else findRegDate rest

/-- Lines 709-737: registration-age scoring.  The try catches
ValueError/TypeError only, so .replace on a truthy non-string raises. -/
def regDateStep (regJ : Option Json) (scanDate : ℚ) (st : ScoreState) : ScorerOut :=
  match regJ with
  | some v =>
    if v.truthy then
      match v with
      | .str s =>
        (match fromiso (replaceZ s) with
         | .error _ => (.ok (), st.subWhois 5)
         | .ok t =>
           let daysOld := tdDays scanDate t
           if daysOld < 30 then (.ok (), st.subWhois 30) else (.ok (), st))
      | _ => (.error .attr, st)
    else (.ok (), st.subWhois 10)
  | none => (.ok (), st.subWhois 10)

/-- Lines 747-754: the registrar-name loop reads entry[0] and entry[3] of
every vCard entry.  It contributes nothing to the score but its exceptions
abort the scorer, so the subscript operations are preserved. -/
def vcardLoop : List Json → Except Err Unit
  | [] => .ok ()
  | entry :: rest =>
    match pyIndex entry 0 with
    | .error e => .error e
    | .ok _ =>
      match pyIndex entry 3 with
      | .error e => .error e
      | .ok _ => vcardLoop rest

/-- Lines 739-754: vcard extraction (informational only). -/
def vcardStep (domainData : Json) (st : ScoreState) : ScorerOut :=
  match pyGet domainData "entities" (.arr [.obj []]) with
  | .error e => (.error e, st)
  | .ok entities =>
  match pyIndex0 entities with
  | .error e => (.error e, st)
  | .ok e0 =>
  match pyGet e0 "vcardArray" (.arr [.null, .arr []]) with
  | .error e => (.error e, st)
  | .ok vca =>
  match pyIndex vca 1 with
  | .error e => (.error e, st)
  | .ok ventries =>
  match pyIter ventries with
  | .error e => (.error e, st)
  | .ok entries =>
  match vcardLoop entries with
  | .error e => (.error e, st)
  | .ok _ => (.ok (), st)

def score_whois_pattern (rdapData : Json) (scanDate : ℚ) (st : ScoreState) : ScorerOut :=
  match pyIndex0 rdapData with
  | .error e => (.error e, st)
  | .ok r0a =>
  match pyGet r0a "domain" (.obj []) with
  | .error e => (.error e, st)
  | .ok domainData =>
  match pyIndex0 rdapData with
  | .error e => (.error e, st)
  | .ok r0b =>
  match pyGet r0b "host" (.str "") with
  | .error e => (.error e, st)
  | .ok _host =>
  match pyIndex0 rdapData with
  | .error e => (.error e, st)
  | .ok r0c =>
  match pyGet r0c "nameserver" (.arr []) with
  | .error e => (.error e, st)
  | .ok _ns =>
  match pyGet domainData "events" (.arr []) with
  | .error e => (.error e, st)
  | .ok eventsJ =>
  match pyGet domainData "status" (.arr []) with
  | .error e => (.error e, st)
  | .ok statusJ =>
  match pyIn "add period" statusJ with
  | .error e => (.error e, st)
  | .ok addP =>
  let st := if addP then st.subWhois 30 else st
  thenDo (lockChecks clientLocks statusJ st) fun st =>
  thenDo (lockChecks serverLocks statusJ st) fun st =>
  match pyIter eventsJ with
  | .error e => (.error e, st)
  | .ok evs =>
  match findRegDate evs with
  | .error e => (.error e, st)
  | .ok regJ =>
  thenDo (regDateStep regJ scanDate st) fun st =>
  vcardStep domainData st

/-! ### score_content_safety (lines 768-833) -/

/-- signals.get(k, 0) > thr, deducting ded on success. -/
def csNumCheck (signals : Json) (k : String) (thr ded : ℚ) (st : ScoreState) : ScorerOut :=
  match pyGet signals k (.num 0) with
  | .error e => (.error e, st)
  | .ok v =>
  match pyNum v with
  | .error e => (.error e, st)
  | .ok q =>
  if q > thr then
    match st.subCS ded with
    | .ok st' => (.ok (), st')
    | .error e => (.error e, st)
  else (.ok (), st)

/-- signals.get(k, False) truthiness check. -/
def csBoolCheck (signals : Json) (k : String) (ded : ℚ) (st : ScoreState) : ScorerOut :=
  match pyGet signals k (.bool false) with
  | .error e => (.error e, st)
  | .ok v =>
  if v.truthy then
    match st.subCS ded with
    | .ok st' => (.ok (), st')
    | .error e => (.error e, st)
  else (.ok (), st)

/-- password_fields > 0 and autocomplete_off (line 792). -/
def csPasswordCheck (signals : Json) (st : ScoreState) : ScorerOut :=
  match pyGet signals "password_fields" (.num 0) with
  | .error e => (.error e, st)
  | .ok v =>
  match pyNum v with
  | .error e => (.error e, st)
  | .ok q =>
  if q > 0 then
    match pyGet signals "autocomplete_off" (.bool false) with
    | .error e => (.error e, st)
    | .ok a =>
    if a.truthy then
      match st.subCS 10 with
      | .ok st' => (.ok (), st')
      | .error e => (.error e, st)
    else (.ok (), st)
  else (.ok (), st)

def score_content_safety (signals : Json) (st : ScoreState) : ScorerOut :=
  if !signals.truthy then (.ok (), st)
  else
  thenDo (csNumCheck signals "invisible_chars" 0 25 st) fun st =>
  thenDo (csNumCheck signals "rtl_overrides" 0 20 st) fun st =>
  thenDo (csNumCheck signals "homoglyph_score" 50 15 st) fun st =>
  thenDo (csBoolCheck signals "form_action_external" 20 st) fun st =>
  thenDo (csPasswordCheck signals st) fun st =>
  thenDo (csNumCheck signals "eval_calls" 0 15 st) fun st =>
  thenDo (csNumCheck signals "document_write" 0 10 st) fun st =>
  thenDo (csNumCheck signals "base64_blobs" 2 15 st) fun st =>
  thenDo (csNumCheck signals "obfuscation_score" 50 20 st) fun st =>
  thenDo (csNumCheck signals "hidden_iframes" 0 20 st) fun st =>
  thenDo (csNumCheck signals "zero_size_elements" 2 10 st) fun st =>
  thenDo (csNumCheck signals "mismatched_links" 0 20 st) fun st =>
  csNumCheck signals "data_uri_links" 0 10 st

/-! ### Redirect-tree walks (lines 11-33 and 538-596)

The Python walks recurse over node["children"].  When that value is a list
the recursion descends into its elements; iterating a non-empty string or
dict instead yields char/key nodes, which are truthy and die immediately
with AttributeError at .get("signals") (an empty one contributes nothing),
and iterating anything else is a TypeError — these non-list cases are
written out directly below so that the recursion is on subterms. -/

theorem lookupKV_sizeOf_lt {kvs : List (String × Json)} {k : String} {v : Json}
    (h : lookupKV kvs k = some v) : sizeOf v < sizeOf kvs := by
  induction kvs with
  | nil => simp [lookupKV] at h
  | cons kv rest ih =>
    obtain ⟨k', v'⟩ := kv
    simp only [lookupKV] at h
    split at h
    · cases h
      simp only [List.cons.sizeOf_spec, Prod.mk.sizeOf_spec]
      omega
    · have := ih h
      simp only [List.cons.sizeOf_spec, Prod.mk.sizeOf_spec]
      omega

/-- Membership of a signal of suspicious type in one node's signals
iteration (lines 25-27), with Python's short-circuit and exceptions. -/
def signalsAny : List Json → Except Err Bool
  | [] => .ok false
  | sig :: rest =>
    match pyGet sig "type" (.str "") with
    | .error e => .error e
    | .ok t =>
      match t with
      | .str ts =>
        if strLower ts = "js" || strLower ts = "meta" || strLower ts = "refresh" then .ok true
        else signalsAny rest
      | _ => .error .attr

mutual

/-- The _walk of _has_suspicious_redirects (lines 22-31). -/
def suspiciousWalk (node : Json) : Except Err Bool :=
  if !node.truthy then .ok false
  else
    match node with
    | .obj kvs =>
      match pyIter ((lookupKV kvs "signals").getD (.arr [])) with
      | .error e => .error e
      | .ok sigs =>
        match signalsAny sigs with
        | .error e => .error e
        | .ok true => .ok true
        | .ok false =>
          match h : (lookupKV kvs "children").getD (.arr []) with
          | .arr cs => suspiciousWalkList cs
          | .str s => if s = "" then .ok false else .error .attr
          | .obj kvs2 => if kvs2.all (fun kv => kv.1 = "") then .ok false else .error .attr
          | .null => .error .type
          | .bool _ => .error .type
          | .num _ => .error .type
    | _ => .error .attr
termination_by sizeOf node
decreasing_by
  cases hl : lookupKV kvs "children" with
  | none =>
    rw [hl] at h
    simp only [Option.getD] at h
    cases h
    have hk : 1 ≤ sizeOf kvs := by cases kvs <;> simp_arith
    simp only [Json.obj.sizeOf_spec]
    simp
    omega
  | some v =>
    rw [hl] at h
    simp only [Option.getD] at h
    subst h
    have := lookupKV_sizeOf_lt hl
    simp only [Json.arr.sizeOf_spec] at this
    simp only [Json.obj.sizeOf_spec]
    omega

def suspiciousWalkList (l : List Json) : Except Err Bool :=
  match l with
  | [] => .ok false
  | c :: rest =>
    match suspiciousWalk c with
    | .error e => .error e
    | .ok true => .ok true
    | .ok false => suspiciousWalkList rest
termination_by sizeOf l
decreasing_by
  · simp only [List.cons.sizeOf_spec]; omega
  · simp only [List.cons.sizeOf_spec]; omega

end

/-- _has_suspicious_redirects (lines 11-33). -/
def hasSuspiciousRedirects (redirectData : Json) : Except Err Bool :=
  if !redirectData.truthy then .ok false
  else
    match pyGetN redirectData "tree" with
    | .error e => .error e
    | .ok tree =>
      if !tree.truthy then .ok false
      else suspiciousWalk tree

/-- Per-node signal-type counting of score_dom_rep_redirect (lines 558-570):
js, meta, refresh counts. -/
def signalCounts : List Json → Except Err (ℕ × ℕ × ℕ)
  | [] => .ok (0, 0, 0)
  | sig :: rest =>
    match pyGet sig "type" (.str "") with
    | .error e => .error e
    | .ok t =>
      match t with
      | .str ts =>
        match signalCounts rest with
        | .error e => .error e
        | .ok (j, m, r) =>
          if strLower ts = "js" then .ok (j + 1, m, r)
          else if strLower ts = "meta" then .ok (j, m + 1, r)
          else if strLower ts = "refresh" then .ok (j, m, r + 1)
          else .ok (j, m, r)
      | _ => .error .attr

mutual

/-- The _walk of score_dom_rep_redirect (lines 558-572): js/meta/refresh
counts plus the visited-node count. -/
def redirectWalk (node : Json) : Except Err (ℕ × ℕ × ℕ × ℕ) :=
  if !node.truthy then .ok (0, 0, 0, 0)
  else
    match node with
    | .obj kvs =>
      match pyIter ((lookupKV kvs "signals").getD (.arr [])) with
      | .error e => .error e
      | .ok sigs =>
        match signalCounts sigs with
        | .error e => .error e
        | .ok (j, m, r) =>
          match h : (lookupKV kvs "children").getD (.arr []) with
          | .arr cs =>
            (match redirectWalkList cs with
             | .error e => .error e
             | .ok (j2, m2, r2, n2) => .ok (j + j2, m + m2, r + r2, 1 + n2))
          | .str s => if s = "" then .ok (j, m, r, 1) else .error .attr
          | .obj kvs2 =>
            if kvs2.all (fun kv => kv.1 = "") then .ok (j, m, r, 1) else .error .attr
          | .null => .error .type
          | .bool _ => .error .type
          | .num _ => .error .type
    | _ => .error .attr
termination_by sizeOf node
decreasing_by
  cases hl : lookupKV kvs "children" with
  | none =>
    rw [hl] at h
    simp only [Option.getD] at h
    cases h
    have hk : 1 ≤ sizeOf kvs := by cases kvs <;> simp_arith
    simp only [Json.obj.sizeOf_spec]
    simp
    omega
  | some v =>
    rw [hl] at h
    simp only [Option.getD] at h
    subst h
    have := lookupKV_sizeOf_lt hl
    simp only [Json.arr.sizeOf_spec] at this
    simp only [Json.obj.sizeOf_spec]
    omega

def redirectWalkList (l : List Json) : Except Err (ℕ × ℕ × ℕ × ℕ) :=
  match l with
  | [] => .ok (0, 0, 0, 0)
  | c :: rest =>
    match redirectWalk c with
    | .error e => .error e
    | .ok (j1, m1, r1, n1) =>
      match redirectWalkList rest with
      | .error e => .error e
      | .ok (j2, m2, r2, n2) => .ok (j1 + j2, m1 + m2, r1 + r2, n1 + n2)
termination_by sizeOf l
decreasing_by
  · simp only [List.cons.sizeOf_spec]; omega
  · simp only [List.cons.sizeOf_spec]; omega

end

/-- score_dom_rep_redirect (lines 538-596). -/
def score_dom_rep_redirect (redirectData : Json) (st : ScoreState) : ScorerOut :=
  if !redirectData.truthy then (.ok (), st)
  else
  match pyGetN redirectData "tree" with
  | .error e => (.error e, st)
  | .ok tree =>
  if !tree.truthy then (.ok (), st)
  else
  match redirectWalk tree with
  | .error e => (.error e, st)
  | .ok (jsCount, metaCount, refreshCount, nodeCount) =>
  let st := if jsCount > 0 then st.subDR 20 else st
  let st := if metaCount > 0 then st.subDR 15 else st
  let st := if refreshCount > 0 then st.subDR 10 else st
  match pyGet redirectData "visited" (.num nodeCount) with
  | .error e => (.error e, st)
  | .ok visitedJ =>
  match pyNum visitedJ with
  | .error e => (.error e, st)
  | .ok visited =>
  if visited > 4 then (.ok (), st.subDR 5) else (.ok (), st)

/-! ### check_preflight (lines 36-67) -/

/-- The short-circuit result: the scores dict ({k: 1 for k in WEIGHTS} plus
Aggregated_Score = 1) and the value of its preflight tag entry. -/
structure PreflightOut where
  scores : List (String × ℚ)
  tag : String
deriving DecidableEq, Repr

def preflightShortCircuit (tag : String) : PreflightOut :=
  { scores := WEIGHTS.map (fun kv => (kv.1, (1 : ℚ))) ++ [("Aggregated_Score", 1)],
    tag := tag }

/-- The signal read pattern `d.get(k, False) if d else False` used at
lines 44-45. -/
def readFlag (j : Json) (k : String) : Except Err Json :=
  if j.truthy then pyGet j k (.bool false) else Except.ok (Json.bool false)

def check_preflight (deadData parkedData redirectData : Json) :
    Except Err (Option PreflightOut) :=
  match readFlag deadData "dead" with
  | .error e => .error e
  | .ok isDead =>
  if isDead.truthy then .ok (some (preflightShortCircuit "dead"))
  else
  match readFlag parkedData "park" with
  | .error e => .error e
  | .ok isParked =>
  if isParked.truthy then
    match hasSuspiciousRedirects redirectData with
    | .error e => .error e
    | .ok true => .ok none
    | .ok false => .ok (some (preflightShortCircuit "parked"))
  else .ok none

/-! ### calculate_final_score (lines 836-886) -/

def lookupQ (ws : List (String × ℚ)) (k : String) : Option ℚ :=
  match ws with
  | [] => none
  | (k', v) :: rest => if k' = k then some v else lookupQ rest k

/-- The accumulation loop of calculate_final_score (lines 853-867): walk
the scores dict in order, skip categories without a weight, fail fast on a
non-positive score, otherwise accumulate the weight and the weight/score
term.  (The source adds the weight before testing the score, but it then
returns 1 unconditionally, so the partial sum is unobservable.) -/
def finalLoop (weights : List (String × ℚ)) :
    List (String × ℚ) → ℚ → ℚ → Option (ℚ × ℚ)
  | [], sw, sr => some (sw, sr)
  | (name, score) :: rest, sw, sr =>
    match lookupQ weights name with
    | none => finalLoop weights rest sw sr
    | some w =>
      if score ≤ 0 then none
      else finalLoop weights rest (sw + w) (sr + w / score)

def calculate_final_score (weights scores : List (String × ℚ)) : ℚ :=
  match finalLoop weights scores 0 0 with
  | none => 1
  | some (sw, sr) => if sr = 0 then 0 else sw / sr

/-! ### calculate_security_score (lines 890-1003) -/

def clamp1to100 (q : ℚ) : ℚ := max 1 (min 100 q)

/-- Line 991-995: the final clamp over every entry of the scores dict. -/
def clampState (st : ScoreState) : ScoreState :=
  { connectionSecurity := clamp1to100 st.connectionSecurity,
    certificateHealth := clamp1to100 st.certificateHealth,
    dnsRecordHealth := clamp1to100 st.dnsRecordHealth,
    domainReputation := clamp1to100 st.domainReputation,
    whoisPattern := clamp1to100 st.whoisPattern,
    ipReputation := clamp1to100 st.ipReputation,
    credentialSafety := clamp1to100 st.credentialSafety,
    contentSafety := st.contentSafety.map clamp1to100 }

/-- The scores dict in its Python insertion order, as consumed by
calculate_final_score. -/
def ScoreState.toList (st : ScoreState) : List (String × ℚ) :=
  [("Connection_Security", st.connectionSecurity),
   ("Certificate_Health", st.certificateHealth),
   ("DNS_Record_Health", st.dnsRecordHealth),
   ("Domain_Reputation", st.domainReputation),
   ("WHOIS_Pattern", st.whoisPattern),
   ("IP_Reputation", st.ipReputation),
   ("Credential_Safety", st.credentialSafety)] ++
  (match st.contentSafety with
   | some v => [("Content_Safety", v)]
   | none => [])

/-- Python round(x, 2): round-half-to-even at two decimals. -/
def pyRound2 (q : ℚ) : ℚ :=
  let y := q * 100
  let f := ⌊y⌋
  let r := y - (f : ℚ)
  (if r < 1 / 2 then (f : ℚ)
   else if r > 1 / 2 then (f : ℚ) + 1
   else if f % 2 = 0 then (f : ℚ) else (f : ℚ) + 1) / 100

/-- One try/except-wrapped scorer invocation reading all_scans[k]: a
missing key raises KeyError inside the try, leaving the state untouched;
any exception escaping the scorer is likewise swallowed, keeping the
mutations made up to the raise point. -/
def tryRun1 (allScans : List (String × Json)) (k : String)
    (f : Json → ScoreState → ScorerOut) (st : ScoreState) : ScoreState :=
  match lookupKV allScans k with
  | none => st
  | some d => (f d st).2

def tryRun2 (allScans : List (String × Json)) (k1 k2 : String)
    (f : Json → Json → ScoreState → ScorerOut) (st : ScoreState) : ScoreState :=
  match lookupKV allScans k1 with
  | none => st
  | some d1 =>
    match lookupKV allScans k2 with
    | none => st
    | some d2 => (f d1 d2 st).2

def tryRun3 (allScans : List (String × Json)) (k1 k2 k3 : String)
    (f : Json → Json → Json → ScoreState → ScorerOut) (st : ScoreState) : ScoreState :=
  match lookupKV allScans k1 with
  | none => st
  | some d1 =>
    match lookupKV allScans k2 with
    | none => st
    | some d2 =>
      match lookupKV allScans k3 with
      | none => st
      | some d3 => (f d1 d2 d3 st).2

/-- Lines 965-974: the Content_Safety block. -/
def contentPhase (allScans : List (String × Json)) (liveSignals : Json)
    (st : ScoreState) : ScoreState :=
  let cs : Except Err Json :=
    if liveSignals.truthy then .ok liveSignals
    else
      match lookupKV allScans "webpage_inspect_scan" with
      | none => .ok liveSignals
      | some inspect =>
        match pyGet inspect "signals" inspect with
        | .error e => .error e
        | .ok v => .ok v
  match cs with
  | .error _ => st
  | .ok contentSignals =>
    if contentSignals.truthy && st.contentSafety.isSome then
      (score_content_safety contentSignals st).2
    else st

/-- Lines 976-989: the fake-parked deception penalty. -/
def fakeParkedPhase (allScans : List (String × Json)) (st : ScoreState) : ScoreState :=
  let parked := (lookupKV allScans "parked_scan").getD .null
  let redirect := (lookupKV allScans "redirect_scan").getD .null
  let isParked : Except Err Bool :=
    match readFlag parked "park" with
    | .error e => .error e
    | .ok v => .ok v.truthy
  match isParked with
  | .error _ => st
  | .ok false => st
  | .ok true =>
    match hasSuspiciousRedirects redirect with
    | .error _ => st
    | .ok false => st
    | .ok true =>
      let st := st.subDR 30
      let st := st.subConn 15
      { st with contentSafety := some ((st.contentSafety.getD 100) - 25) }

/-- calculate_security_score.  scanDate is the reference date passed in by
the caller; nowDate models the ambient clock datetime.now() used only by
the CT-log scorer; liveSignals models the optional live-signals argument
(None becomes Json.null).  The result is the clamped per-category state
together with the rounded Aggregated_Score entry. -/
def calculate_security_score (allScans : List (String × Json))
    (scanDate nowDate : ℚ) (liveSignals : Json) : ScoreState × ℚ :=
  let hasContent := liveSignals.truthy || (lookupKV allScans "webpage_inspect_scan").isSome
  let st := initScores hasContent
  let st := tryRun1 allScans "cert_scan" (fun d => score_cert_health d scanDate) st
  let st := tryRun2 allScans "dns_scan" "rdap_scan" score_dns_rec_health st
  let st := tryRun2 allScans "hval_scan" "cert_scan" score_conn_sec st
  let st := tryRun3 allScans "mail_scan" "method_scan" "rdap_scan" score_dom_rep st
  let st := tryRun2 allScans "cert_scan" "hval_scan" score_cred_safety st
  let st := tryRun1 allScans "rdap_scan" (fun d => score_whois_pattern d scanDate) st
  let st := (score_ip_rep ((lookupKV allScans "firewall_scan").getD (.obj []))
              ((lookupKV allScans "ipinfo_scan").getD (.obj [])) st).2
  let st := if (lookupKV allScans "crtsh_scan").isSome then
              (score_cert_health_ct ((lookupKV allScans "crtsh_scan").getD .null) nowDate st).2
            else st
  let st := if (lookupKV allScans "redirect_scan").isSome then
              (score_dom_rep_redirect ((lookupKV allScans "redirect_scan").getD .null) st).2
            else st
  let st := contentPhase allScans liveSignals st
  let st := fakeParkedPhase allScans st
  let st := clampState st
  (st, pyRound2 (calculate_final_score WEIGHTS st.toList))

/-! ### data_fetch.py -/

/-- process_single_endpoint (data_fetch.py lines 45-121).  The transport is
abstracted by curl : endpoint → Option raw-output (execute_curl_command:
None on non-zero exit, timeout or transport error) and json.loads by
loads : raw-output → Option Json (None meaning JSONDecodeError). -/
def process_single_endpoint (loads : String → Option Json)
    (curl : String → Option String) (endpoint : String) : Option (String × Json) :=
  if endpoint = "title" then none
  else
    match curl endpoint with
    | none => none
    | some out =>
      match loads out with
      | none => none
      | some data => some (endpoint ++ "_scan", data)

/-- fetch_scan_data_concurrent (lines 123-150).  executor.map yields results
in the order of API_ENDPOINTS, and each (scan_key, data) pair is kept only
when both are truthy. -/
def fetch_scan_data_concurrent (loads : String → Option Json)
    (curl : String → Option String) : List (String × Json) :=
  API_ENDPOINTS.foldl
    (fun acc ep =>
      match process_single_endpoint loads curl ep with
      | some (k, d) => if k ≠ "" && d.truthy then acc ++ [(k, d)] else acc
      | none => acc) []

/-! ## Aggregator lemmas and the C1 theorem -/

/-- sum_of_weights over the categories present in both tables. -/
def overlapWeightSum (ws scores : List (String × ℚ)) : ℚ :=
  (scores.map (fun p => (lookupQ ws p.1).getD 0)).sum

/-- sum_of_ratios (weight / score) over the categories present in both. -/
def overlapRatioSum (ws scores : List (String × ℚ)) : ℚ :=
  (scores.map (fun p =>
    match lookupQ ws p.1 with
    | some w => w / p.2
    | none => 0)).sum

theorem finalLoop_fail (ws : List (String × ℚ)) :
    ∀ (scores : List (String × ℚ)) (sw sr : ℚ),
      (∃ p ∈ scores, (lookupQ ws p.1).isSome ∧ p.2 ≤ 0) →
      finalLoop ws scores sw sr = none := by
  intro scores
  induction scores with
  | nil => intro sw sr h; simp at h
  | cons hd tl ih =>
    intro sw sr h
    obtain ⟨n, s⟩ := hd
    obtain ⟨p, hp, hw, hs⟩ := h
    rcases List.mem_cons.mp hp with heq | htl
    · subst heq
      simp only [finalLoop]
      cases hl : lookupQ ws n with
      | none => rw [hl] at hw; simp at hw
      | some w => simp [hs]
    · simp only [finalLoop]
      cases hl : lookupQ ws n with
      | none => exact ih _ _ ⟨p, htl, hw, hs⟩
      | some w =>
        by_cases hns : s ≤ 0
        · simp [hns]
        · simp only [if_neg hns]
          exact ih _ _ ⟨p, htl, hw, hs⟩

theorem overlapWeightSum_cons (ws : List (String × ℚ)) (n : String) (s : ℚ)
    (tl : List (String × ℚ)) :
    overlapWeightSum ws ((n, s) :: tl) = (lookupQ ws n).getD 0 + overlapWeightSum ws tl := by
  simp [overlapWeightSum]

theorem overlapRatioSum_cons (ws : List (String × ℚ)) (n : String) (s : ℚ)
    (tl : List (String × ℚ)) :
    overlapRatioSum ws ((n, s) :: tl) =
      (match lookupQ ws n with
       | some w => w / s
       | none => 0) + overlapRatioSum ws tl := by
  simp [overlapRatioSum]

theorem finalLoop_pos (ws : List (String × ℚ)) :
    ∀ (scores : List (String × ℚ)) (sw sr : ℚ),
      (∀ p ∈ scores, (lookupQ ws p.1).isSome → 0 < p.2) →
      finalLoop ws scores sw sr =
        some (sw + overlapWeightSum ws scores, sr + overlapRatioSum ws scores) := by
  intro scores
  induction scores with
  | nil => intro sw sr _; simp [finalLoop, overlapWeightSum, overlapRatioSum]
  | cons hd tl ih =>
    intro sw sr h
    obtain ⟨n, s⟩ := hd
    rw [overlapWeightSum_cons, overlapRatioSum_cons]
    cases hl : lookupQ ws n with
    | none =>
      simp only [finalLoop, hl]
      rw [ih sw sr (fun p hp => h p (List.mem_cons_of_mem _ hp))]
      norm_num
    | some w =>
      have hpos : 0 < s := by
        have := h (n, s) (List.mem_cons_self _ _)
        rw [hl] at this
        exact this (by simp)
      simp only [finalLoop, hl, if_neg (not_le.mpr hpos)]
      rw [ih _ _ (fun p hp => h p (List.mem_cons_of_mem _ hp))]
      simp only [Option.getD_some, Option.some.injEq, Prod.mk.injEq]
      constructor <;> ring

theorem overlapSums_no_overlap (ws : List (String × ℚ)) :
    ∀ scores : List (String × ℚ),
      (∀ p ∈ scores, lookupQ ws p.1 = none) →
      overlapWeightSum ws scores = 0 ∧ overlapRatioSum ws scores = 0 := by
  intro scores
  induction scores with
  | nil => intro _; simp [overlapWeightSum, overlapRatioSum]
  | cons hd tl ih =>
    intro h
    obtain ⟨n, s⟩ := hd
    have hhd := h (n, s) (List.mem_cons_self _ _)
    have htl := ih (fun p hp => h p (List.mem_cons_of_mem _ hp))
    rw [overlapWeightSum_cons, overlapRatioSum_cons, hhd]
    simp only [Option.getD_none]
    constructor
    · rw [htl.1]; ring
    · rw [htl.2]; ring

theorem overlapRatio_all100 (ws : List (String × ℚ)) :
    ∀ scores : List (String × ℚ),
      (∀ p ∈ scores, (lookupQ ws p.1).isSome → p.2 = 100) →
      overlapRatioSum ws scores = overlapWeightSum ws scores / 100 := by
  intro scores
  induction scores with
  | nil => intro _; simp [overlapWeightSum, overlapRatioSum]
  | cons hd tl ih =>
    intro h
    have htl := ih (fun p hp => h p (List.mem_cons_of_mem _ hp))
    obtain ⟨n, s⟩ := hd
    rw [overlapWeightSum_cons, overlapRatioSum_cons, htl]
    cases hl : lookupQ ws n with
    | none => simp
    | some w =>
      have hs : s = 100 := by
        have := h (n, s) (List.mem_cons_self _ _)
        rw [hl] at this
        exact this (by simp)
      simp only [Option.getD_some, hs]
      ring

/-- C1: calculate_final_score returns 1 as soon as any category present in
the weights table has a score ≤ 0, whatever the other entries hold; it
returns 0 when no category overlaps the weights; otherwise (all overlapping
scores positive) it returns the weighted harmonic mean
sum_of_weights / sum_of_ratios over the overlapping categories (0 when the
ratio sum vanishes), so an input in which every overlapping category scores
100 yields exactly 100 whenever the overlapping weight total is positive. -/
theorem C1_aggregator_fail_fast_and_harmonic_mean (weights scores : List (String × ℚ)) :
    ((∃ p ∈ scores, (lookupQ weights p.1).isSome ∧ p.2 ≤ 0) →
        calculate_final_score weights scores = 1)
  ∧ ((∀ p ∈ scores, lookupQ weights p.1 = none) →
        calculate_final_score weights scores = 0)
  ∧ ((∀ p ∈ scores, (lookupQ weights p.1).isSome → 0 < p.2) →
        calculate_final_score weights scores =
          (if overlapRatioSum weights scores = 0 then 0
           else overlapWeightSum weights scores / overlapRatioSum weights scores))
  ∧ ((∀ p ∈ scores, (lookupQ weights p.1).isSome → p.2 = 100) →
        0 < overlapWeightSum weights scores →
        calculate_final_score weights scores = 100) := by
  refine ⟨fun h => ?_, fun h => ?_, fun h => ?_, fun h hw => ?_⟩
  · unfold calculate_final_score
    rw [finalLoop_fail weights scores 0 0 h]
  · unfold calculate_final_score
    have hpos : ∀ p ∈ scores, (lookupQ weights p.1).isSome → 0 < p.2 := by
      intro p hp hs
      rw [h p hp] at hs
      simp at hs
    rw [finalLoop_pos weights scores 0 0 hpos]
    obtain ⟨h1, h2⟩ := overlapSums_no_overlap weights scores h
    simp [h1, h2]
  · unfold calculate_final_score
    rw [finalLoop_pos weights scores 0 0 h]
    simp
  · unfold calculate_final_score
    have hpos : ∀ p ∈ scores, (lookupQ weights p.1).isSome → 0 < p.2 := by
      intro p hp hs
      rw [h p hp hs]
      norm_num
    rw [finalLoop_pos weights scores 0 0 hpos]
    have hr := overlapRatio_all100 weights scores h
    have hrne : overlapWeightSum weights scores / 100 ≠ 0 := by
      positivity
    simp only [zero_add, hr]
    rw [if_neg hrne]
    field_simp

/-- Witness for C1 at concrete inputs: a zero score on a weighted category
forces 1; a score table disjoint from the weights yields 0; an all-100
table yields exactly 100. -/
theorem C1_aggregator_witness :
    calculate_final_score [("A", 5)] [("A", 0), ("B", 7)] = 1
  ∧ calculate_final_score [("A", 5)] [("C", 50)] = 0
  ∧ calculate_final_score [("A", 5), ("B", 7)] [("A", 100), ("B", 100)] = 100 := by
  refine ⟨(C1_aggregator_fail_fast_and_harmonic_mean [("A", 5)] [("A", 0), ("B", 7)]).1
            ⟨("A", 0), by simp, by decide, by norm_num⟩,
          (C1_aggregator_fail_fast_and_harmonic_mean [("A", 5)] [("C", 50)]).2.1 ?_,
          (C1_aggregator_fail_fast_and_harmonic_mean [("A", 5), ("B", 7)]
            [("A", 100), ("B", 100)]).2.2.2 ?_ ?_⟩
  · intro p hp
    fin_cases hp <;> decide
  · intro p hp
    fin_cases hp <;> decide
  · norm_num [overlapWeightSum, lookupQ, show ("A" : String) ≠ "B" from by decide]

/-! ## Certificate-expiration gradient: the C4 and C10 theorems -/

deriving instance DecidableEq for Except

/-- A cert-scan payload with a parseable leaf certificate and clean
verification data (hostname matches, chain verified), isolating the
validity and expiration deductions of score_cert_health. -/
def mkCertData (sa sb : String) : Json :=
  .obj [("connection", .obj []),
        ("verification", .obj [("hostname_matches", .bool true),
                               ("chain_verified", .bool true)]),
        ("certs", .arr [.obj [("not_after", .str sa), ("not_before", .str sb)]])]

theorem pyTrunc_intCast (n : ℤ) : pyTrunc ((n : ℤ) : ℚ) = n := by
  unfold pyTrunc
  split <;> simp

set_option maxRecDepth 8000 in
/-- Within the claimed band 0 ≤ d ≤ 30 the float computation is exact:
the gradient is precisely 30 - d (checked value by value). -/
theorem certGradient_band (d : ℤ) (h0 : 0 ≤ d) (h30 : d ≤ 30) :
    certGradient d = 30 - (d : ℚ) := by
  interval_cases d <;> with_unfolding_all decide

set_option maxRecDepth 8000 in
/-- On the expired band -120 ≤ d ≤ -1 the gradient is at least 31, within
one point of 30 - d from below, and never above 30 - d (checked value by
value; the one-point drop occurs at d = -93). -/
theorem certGradient_neg_band (d : ℤ) (h1 : -120 ≤ d) (h2 : d ≤ -1) :
    31 ≤ certGradient d ∧ 29 - (d : ℚ) ≤ certGradient d
      ∧ certGradient d ≤ 30 - (d : ℚ) := by
  interval_cases d <;> with_unfolding_all decide

theorem subCert_subCert (st : ScoreState) (a b : ℚ) :
    (st.subCert a).subCert b = st.subCert (a + b) := by
  simp [ScoreState.subCert, sub_sub]

theorem fromiso_ne_empty {s : String} {t : ℚ} (h : fromiso (replaceZ s) = .ok t) :
    s ≠ "" := by
  intro he
  subst he
  have h0 : fromiso (replaceZ "") = .error .value := rfl
  rw [h0] at h
  exact Except.noConfusion h

/-- The verification object of mkCertData. -/
def certVerifObj : Json :=
  .obj [("hostname_matches", .bool true), ("chain_verified", .bool true)]

theorem certTry_mk (sa sb : String) (ta tb : ℚ) (st : ScoreState)
    (ha : fromiso (replaceZ sa) = .ok ta) (hb : fromiso (replaceZ sb) = .ok tb) :
    certTry (mkCertData sa sb) st = (.ok (some (ta, tb, certVerifObj)), st) := by
  have hsa : sa ≠ "" := fromiso_ne_empty ha
  have hsb : sb ≠ "" := fromiso_ne_empty hb
  unfold certTry
  simp [mkCertData, pyGet, pyGetN, pyIndex0, lookupKV, Json.truthy, Json.isArr,
    strTake, hsa, hsb, ha, hb, certVerifObj]

theorem certMain_mk (scanDate ta tb : ℚ) (st : ScoreState) :
    certMain certVerifObj scanDate ta tb st =
      (.ok (),
        (let s1 := if ta < scanDate then st.subCert 50 else st
         let s2 := if scanDate < tb then s1.subCert 50 else s1
         if 30 < tdDays ta scanDate then s2
         else s2.subCert (certGradient (tdDays ta scanDate)))) := by
  unfold certMain
  simp [certVerifObj, pyGet, lookupKV, Json.truthy, pyEqStr, gt_iff_lt]

/-- Evaluation of score_cert_health on a parseable, cleanly-verified leaf
certificate: only the validity penalties and the expiration band act. -/
theorem score_cert_health_mk_eval (sa sb : String) (scanDate ta tb : ℚ) (st : ScoreState)
    (ha : fromiso (replaceZ sa) = .ok ta) (hb : fromiso (replaceZ sb) = .ok tb) :
    score_cert_health (mkCertData sa sb) scanDate st =
      (.ok (),
        (let s1 := if ta < scanDate then st.subCert 50 else st
         let s2 := if scanDate < tb then s1.subCert 50 else s1
         if 30 < tdDays ta scanDate then s2
         else s2.subCert (certGradient (tdDays ta scanDate)))) := by
  unfold score_cert_health
  rw [certTry_mk sa sb ta tb st ha hb]
  exact certMain_mk scanDate ta tb st

/-- C4: for a parseable leaf certificate whose days-until-expiration
d = (not_after - scan_date).days satisfies 0 ≤ d ≤ 30, the expiration
deduction applied by score_cert_health is exactly 30 - d: within this band
the float evaluation int(30 * ((30 - d) / 30)) recovers the integer 30 - d
exactly (checked value by value over the band); it is 0 at d = 30, 30 at
d = 0, strictly decreasing in d on [0, 30], and absent (0) for d > 30. -/
theorem C4_cert_expiration_gradient (sa sb : String) (scanDate ta tb : ℚ)
    (st : ScoreState)
    (ha : fromiso (replaceZ sa) = .ok ta) (hb : fromiso (replaceZ sb) = .ok tb)
    (hnb : tb ≤ scanDate) (hna : scanDate ≤ ta)
    (hband : tdDays ta scanDate ≤ 30) :
    score_cert_health (mkCertData sa sb) scanDate st
        = (.ok (), st.subCert (30 - (tdDays ta scanDate : ℚ)))
  ∧ 0 ≤ tdDays ta scanDate
  ∧ (∀ d : ℤ, 0 ≤ d → d ≤ 30 → certExpirationDeduction d = 30 - (d : ℚ))
  ∧ certExpirationDeduction 30 = 0
  ∧ certExpirationDeduction 0 = 30
  ∧ (∀ d1 d2 : ℤ, 0 ≤ d1 → d1 < d2 → d2 ≤ 30 →
      certExpirationDeduction d2 < certExpirationDeduction d1)
  ∧ (∀ d : ℤ, 30 < d → certExpirationDeduction d = 0) := by
  have hd0 : (0 : ℤ) ≤ tdDays ta scanDate := by
    unfold tdDays
    exact Int.le_floor.mpr (by push_cast; linarith)
  have hded : ∀ d : ℤ, 0 ≤ d → d ≤ 30 → certExpirationDeduction d = 30 - (d : ℚ) := by
    intro d hdl hd
    unfold certExpirationDeduction
    rw [if_neg (not_lt.mpr hd), certGradient_band d hdl hd]
  refine ⟨?_, hd0, hded,
    by rw [hded 30 (by norm_num) le_rfl]; norm_num,
    by rw [hded 0 le_rfl (by norm_num)]; norm_num, ?_, ?_⟩
  · rw [score_cert_health_mk_eval sa sb scanDate ta tb st ha hb]
    simp only [if_neg (not_lt.mpr hna), if_neg (not_lt.mpr hnb),
      if_neg (not_lt.mpr hband), certGradient_band _ hd0 hband]
  · intro d1 d2 h0 h12 h30
    rw [hded d1 h0 (by omega), hded d2 (by omega) h30]
    have hc : (d1 : ℚ) < (d2 : ℚ) := by exact_mod_cast h12
    linarith
  · intro d hd
    unfold certExpirationDeduction
    rw [if_pos hd]

/-- Witness for C4: scan on 2026-01-01 of a certificate expiring
2026-01-11 (d = 10) deducts exactly 20 points. -/
theorem C4_cert_expiration_gradient_witness :
    score_cert_health (mkCertData "2026-01-11" "2025-01-01") 20454 (initScores false)
      = (.ok (), (initScores false).subCert (30 - (tdDays ((20464 : ℤ) : ℚ) 20454 : ℚ))) :=
  (C4_cert_expiration_gradient "2026-01-11" "2025-01-01" 20454 ((20464 : ℤ) : ℚ)
    ((20089 : ℤ) : ℚ) (initScores false) (by decide) (by decide) (by decide)
    (by decide) (by with_unfolding_all decide)).1

set_option maxRecDepth 8000 in
/-- C10 counterexample to the exact formula and the one-point-per-day
growth: Python's float evaluation of int(30 * ((30 - d) / 30)) first falls
below 30 - d at d = -93, where the correctly-rounded product sits just
under 123 and truncates to 122.  The gradient therefore stalls from
d = -92 to d = -93 (122 both days) and jumps by two points at d = -94,
and a certificate 93 days expired on a 2026-01-01 scan is deducted
50 + 122 = 172 points, not the 173 = 80 - d the uncorrected formula
predicts. -/
theorem C10_gradient_counterexample :
    certGradient (-92) = 122
    ∧ certGradient (-93) = 122
    ∧ certGradient (-94) = 124
    ∧ certGradient (-93) ≠ 30 - ((-93 : ℤ) : ℚ)
    ∧ score_cert_health (mkCertData "2025-09-30" "2025-01-01") 20454 (initScores false)
        = (.ok (), (initScores false).subCert 172) := by
  refine ⟨?_, ?_, ?_, ?_, ?_⟩ <;> with_unfolding_all decide

/-- C10 (implicit) amended: when the certificate is already expired
(d ≤ -1), score_cert_health stacks the gradient int(30 * ((30 - d) / 30))
on top of the fixed 50-point expired penalty; on the verified band
-120 ≤ d ≤ -1 the gradient is at least 31 and lies within one point below
30 - d (never above it), so the pre-clamp deduction 50 + gradient is at
least 81, grows by one point per day up to a one-point float-rounding
stall (at d = -93 on this band), and reaches 50 + (30 - d) - 1 or more. -/
theorem C10_expired_cert_gradient_stacking (sa sb : String) (scanDate ta tb : ℚ)
    (st : ScoreState)
    (ha : fromiso (replaceZ sa) = .ok ta) (hb : fromiso (replaceZ sb) = .ok tb)
    (hnb : tb ≤ scanDate) (hexp : ta < scanDate)
    (hband : -120 ≤ tdDays ta scanDate) :
    score_cert_health (mkCertData sa sb) scanDate st
        = (.ok (), st.subCert (50 + certGradient (tdDays ta scanDate)))
  ∧ tdDays ta scanDate ≤ -1
  ∧ 30 < certGradient (tdDays ta scanDate)
  ∧ 29 - ((tdDays ta scanDate : ℤ) : ℚ) ≤ certGradient (tdDays ta scanDate)
  ∧ certGradient (tdDays ta scanDate) ≤ 30 - ((tdDays ta scanDate : ℤ) : ℚ)
  ∧ (81 : ℚ) ≤ 50 + certGradient (tdDays ta scanDate) := by
  have hdneg : tdDays ta scanDate ≤ -1 := by
    have hlt : tdDays ta scanDate < 0 := by
      unfold tdDays
      exact Int.floor_lt.mpr (by push_cast; linarith)
    omega
  have hb30 : tdDays ta scanDate ≤ 30 := by omega
  obtain ⟨hg31, hglo, hghi⟩ := certGradient_neg_band (tdDays ta scanDate) hband hdneg
  refine ⟨?_, hdneg, by linarith, hglo, hghi, by linarith⟩
  rw [score_cert_health_mk_eval sa sb scanDate ta tb st ha hb]
  simp only [if_pos hexp, if_neg (not_lt.mpr hnb), if_neg (not_lt.mpr hb30),
    subCert_subCert]

set_option maxRecDepth 8000 in
/-- Witness for C10: scan on 2026-01-01 of a certificate that expired on
2025-12-20 (d = -12) deducts 50 + certGradient (-12) = 92 points before
clamping. -/
theorem C10_expired_cert_gradient_witness :
    score_cert_health (mkCertData "2025-12-20" "2025-01-01") 20454 (initScores false)
      = (.ok (), (initScores false).subCert
          (50 + certGradient (tdDays ((20442 : ℤ) : ℚ) 20454))) :=
  (C10_expired_cert_gradient_stacking "2025-12-20" "2025-01-01" 20454 ((20442 : ℤ) : ℚ)
    ((20089 : ℤ) : ℚ) (initScores false) (by decide) (by decide) (by decide)
    (by decide) (by with_unfolding_all decide)).1


/-- Abstract redirect trees, for quantifying over the redirect payloads the
preflight gate walks: each node carries its signal-type strings and its
children. -/
inductive RTree where
  | node (signals : List String) (children : List RTree)

mutual

def RTree.toJson : RTree → Json
  | .node sigs ch =>
    .obj [("signals", .arr (sigs.map (fun s => .obj [("type", .str s)]))),
          ("children", .arr (RTree.listToJson ch))]

def RTree.listToJson : List RTree → List Json
  | [] => []
  | t :: ts => RTree.toJson t :: RTree.listToJson ts

end

/-- The claim's notion: the tree contains a signal of type js, meta or
refresh (case-insensitively) at some depth. -/
def suspiciousType (s : String) : Bool :=
  strLower s = "js" || strLower s = "meta" || strLower s = "refresh"

mutual

def RTree.suspicious : RTree → Bool
  | .node sigs ch => sigs.any suspiciousType || RTree.anySuspicious ch

def RTree.anySuspicious : List RTree → Bool
  | [] => false
  | t :: ts => RTree.suspicious t || RTree.anySuspicious ts

end

theorem signalsAny_map (sigs : List String) :
    signalsAny (sigs.map (fun s => Json.obj [("type", .str s)]))
      = .ok (sigs.any suspiciousType) := by
  induction sigs with
  | nil => rfl
  | cons s rest ih =>
    simp only [List.map_cons, signalsAny, pyGet, lookupKV, if_pos rfl, Option.getD_some,
      List.any_cons, suspiciousType]
    by_cases h : strLower s = "js" || strLower s = "meta" || strLower s = "refresh"
    · simp [h]
    · simp only [h, if_neg]
      rw [ih]
      simp [h]

mutual

theorem suspiciousWalk_toJson (t : RTree) :
    suspiciousWalk (RTree.toJson t) = .ok t.suspicious := by
  match t with
  | .node sigs ch =>
    rw [RTree.toJson, suspiciousWalk]
    simp only [Json.truthy, List.isEmpty, Bool.not_false, Bool.not_true, if_true, ite_true,
      lookupKV, Option.getD_some, pyIter, signalsAny_map, RTree.suspicious]
    cases hs : sigs.any suspiciousType with
    | true => simp [hs]
    | false =>
      have hrec := suspiciousWalkList_toJson ch
      simp only [hs, Bool.false_or]
      simpa using hrec

theorem suspiciousWalkList_toJson (l : List RTree) :
    suspiciousWalkList (RTree.listToJson l) = .ok (RTree.anySuspicious l) := by
  match l with
  | [] => simp [RTree.listToJson, suspiciousWalkList, RTree.anySuspicious]
  | t :: ts =>
    rw [RTree.listToJson, suspiciousWalkList]
    simp only [suspiciousWalk_toJson t, RTree.anySuspicious]
    cases ht : t.suspicious with
    | true => simp
    | false =>
      have hrec := suspiciousWalkList_toJson ts
      simp only [Bool.false_or]
      simpa using hrec

end

theorem hasSuspiciousRedirects_toJson (t : RTree) :
    hasSuspiciousRedirects (Json.obj [("tree", t.toJson)]) = .ok t.suspicious := by
  unfold hasSuspiciousRedirects
  match t with
  | .node sigs ch =>
    simp only [Json.truthy, List.isEmpty, Bool.not_false, if_true, ite_true, ite_false,
      pyGetN, pyGet, lookupKV, RTree.toJson, Option.getD_some, Bool.not_true]
    simpa using suspiciousWalk_toJson (RTree.node sigs ch)

/-- C3: a truthy dead signal short-circuits to the all-ones score dict
tagged "dead" regardless of the other inputs; with dead falsy and parked
truthy, the gate proceeds (returns none) precisely when the redirect tree
holds a js/meta/refresh signal at any depth and otherwise short-circuits
identically with tag "parked"; with both signals falsy it proceeds. -/
theorem C3_preflight_gate (dd pd rd dv pv : Json) (t : RTree) :
    ((readFlag dd "dead" = .ok dv) → dv.truthy = true →
        check_preflight dd pd rd = .ok (some (preflightShortCircuit "dead")))
  ∧ ((readFlag dd "dead" = .ok dv) → dv.truthy = false →
     (readFlag pd "park" = .ok pv) → pv.truthy = true →
        ((check_preflight dd pd (Json.obj [("tree", t.toJson)]) = .ok none
            ↔ t.suspicious = true)
         ∧ (t.suspicious = false →
              check_preflight dd pd (Json.obj [("tree", t.toJson)])
                = .ok (some (preflightShortCircuit "parked")))))
  ∧ ((readFlag dd "dead" = .ok dv) → dv.truthy = false →
     (readFlag pd "park" = .ok pv) → pv.truthy = false →
        check_preflight dd pd rd = .ok none)
  ∧ (∀ kv ∈ WEIGHTS, (kv.1, (1 : ℚ)) ∈ (preflightShortCircuit "dead").scores
        ∧ (kv.1, (1 : ℚ)) ∈ (preflightShortCircuit "parked").scores)
  ∧ ("Aggregated_Score", (1 : ℚ)) ∈ (preflightShortCircuit "dead").scores
  ∧ ("Aggregated_Score", (1 : ℚ)) ∈ (preflightShortCircuit "parked").scores
  ∧ (preflightShortCircuit "dead").tag = "dead"
  ∧ (preflightShortCircuit "parked").tag = "parked" := by
  refine ⟨?_, ?_, ?_, ?_, by decide, by decide, rfl, rfl⟩
  · intro hd hdv
    unfold check_preflight
    rw [hd]
    simp [hdv]
  · intro hd hdv hp hpv
    unfold check_preflight
    rw [hd]
    simp only [hdv, if_false, ite_false, Bool.false_eq_true]
    rw [hp]
    simp only [hpv, if_true, ite_true]
    rw [hasSuspiciousRedirects_toJson t]
    constructor
    · cases ht : t.suspicious with
      | true => simp
      | false => simp
    · intro ht
      simp [ht]
  · intro hd hdv hp hpv
    unfold check_preflight
    rw [hd]
    simp only [hdv, Bool.false_eq_true, if_false, ite_false]
    rw [hp]
    simp [hpv]
  · intro kv hkv
    fin_cases hkv <;> exact ⟨by decide, by decide⟩

/-- Witness for C3 at concrete inputs: dead short-circuit, parked page with
a meta redirect proceeding to full scoring, and genuinely parked page
short-circuiting. -/
theorem C3_preflight_witness :
    check_preflight (Json.obj [("dead", .bool true)]) .null .null
        = .ok (some (preflightShortCircuit "dead"))
  ∧ check_preflight .null (Json.obj [("park", .bool true)])
        (Json.obj [("tree", (RTree.node ["meta"] []).toJson)]) = .ok none
  ∧ check_preflight .null (Json.obj [("park", .bool true)])
        (Json.obj [("tree", (RTree.node [] []).toJson)])
        = .ok (some (preflightShortCircuit "parked")) := by
  refine ⟨(C3_preflight_gate (Json.obj [("dead", .bool true)]) .null .null
      (.bool true) (.bool false) (RTree.node [] [])).1 rfl rfl,
    ((C3_preflight_gate .null (Json.obj [("park", .bool true)]) .null
      (.bool false) (.bool true) (RTree.node ["meta"] [])).2.1 rfl rfl rfl rfl).1.mpr
      (by decide),
    ((C3_preflight_gate .null (Json.obj [("park", .bool true)]) .null
      (.bool false) (.bool true) (RTree.node [] [])).2.1 rfl rfl rfl rfl).2
      (by decide)⟩

/-- The contribution one endpoint makes to the bundle: its parsed payload
when the transport succeeded, the payload parsed as JSON, and the parsed
value is truthy; nothing otherwise. -/
def endpointPayload (loads : String → Option Json) (curl : String → Option String)
    (ep : String) : Option Json :=
  match process_single_endpoint loads curl ep with
  | some (k, d) => if k ≠ "" && d.truthy then some d else none
  | none => none

def fetchCollect (loads : String → Option Json) (curl : String → Option String) :
    List String → List (String × Json)
  | [] => []
  | ep :: rest =>
    match process_single_endpoint loads curl ep with
    | some (k, d) =>
      if k ≠ "" && d.truthy then (k, d) :: fetchCollect loads curl rest
      else fetchCollect loads curl rest
    | none => fetchCollect loads curl rest

theorem fetch_foldl_collect (loads : String → Option Json)
    (curl : String → Option String) :
    ∀ (l : List String) (acc : List (String × Json)),
      l.foldl (fun acc ep =>
        match process_single_endpoint loads curl ep with
        | some (k, d) => if k ≠ "" && d.truthy then acc ++ [(k, d)] else acc
        | none => acc) acc = acc ++ fetchCollect loads curl l := by
  intro l
  induction l with
  | nil => intro acc; simp [fetchCollect]
  | cons ep rest ih =>
    intro acc
    simp only [List.foldl_cons, fetchCollect]
    cases hp : process_single_endpoint loads curl ep with
    | none => rw [ih]
    | some kd =>
      obtain ⟨k, d⟩ := kd
      rw [ih]
      dsimp only
      by_cases ht : (decide (k ≠ "") && d.truthy) = true
      · rw [if_pos ht, if_pos ht]
        simp
      · rw [if_neg ht, if_neg ht]

theorem fetchCollect_keys (loads : String → Option Json)
    (curl : String → Option String) :
    ∀ (l : List String) (k : String),
      k ∉ l.map (fun e => e ++ "_scan") → lookupKV (fetchCollect loads curl l) k = none := by
  intro l
  induction l with
  | nil => intro k _; rfl
  | cons ep rest ih =>
    intro k hk
    simp only [List.map_cons, List.mem_cons, not_or] at hk
    obtain ⟨hk1, hk2⟩ := hk
    simp only [fetchCollect]
    cases hp : process_single_endpoint loads curl ep with
    | none => exact ih k hk2
    | some kd =>
      obtain ⟨kk, d⟩ := kd
      have hkk : kk = ep ++ "_scan" := by
        unfold process_single_endpoint at hp
        split at hp
        · exact absurd hp (by simp)
        · cases hc : curl ep with
          | none => rw [hc] at hp; exact absurd hp (by simp)
          | some out =>
            rw [hc] at hp
            simp only at hp
            cases hl : loads out with
            | none => rw [hl] at hp; exact absurd hp (by simp)
            | some dd =>
              rw [hl] at hp
              simp only [Option.some.injEq, Prod.mk.injEq] at hp
              exact hp.1.symm
      by_cases ht : kk ≠ "" && d.truthy
      · simp only [ht, if_true, ite_true, lookupKV]
        rw [if_neg (by rw [hkk]; exact fun h => hk1 h.symm)]
        exact ih k hk2
      · simp only [ht, if_false, ite_false]
        exact ih k hk2

theorem fetchCollect_lookup (loads : String → Option Json)
    (curl : String → Option String) :
    ∀ l : List String, (l.map (fun e => e ++ "_scan")).Nodup →
      ∀ ep ∈ l, lookupKV (fetchCollect loads curl l) (ep ++ "_scan")
        = endpointPayload loads curl ep := by
  intro l
  induction l with
  | nil => intro _ ep hep; simp at hep
  | cons e rest ih =>
    intro hnd ep hep
    simp only [List.map_cons, List.nodup_cons] at hnd
    obtain ⟨hne, hndr⟩ := hnd
    rcases List.mem_cons.mp hep with heq | hmem
    · subst heq
      simp only [fetchCollect, endpointPayload]
      cases hp : process_single_endpoint loads curl ep with
      | none => exact fetchCollect_keys loads curl rest _ hne
      | some kd =>
        obtain ⟨kk, d⟩ := kd
        have hkk : kk = ep ++ "_scan" := by
          unfold process_single_endpoint at hp
          split at hp
          · exact absurd hp (by simp)
          · cases hc : curl ep with
            | none => rw [hc] at hp; exact absurd hp (by simp)
            | some out =>
              rw [hc] at hp
              simp only at hp
              cases hl : loads out with
              | none => rw [hl] at hp; exact absurd hp (by simp)
              | some dd =>
                rw [hl] at hp
                simp only [Option.some.injEq, Prod.mk.injEq] at hp
                exact hp.1.symm
        by_cases ht : kk ≠ "" && d.truthy
        · subst hkk
          dsimp only
          rw [if_pos ht, if_pos ht]
          simp [lookupKV]
        · simp only [ht, if_false, ite_false]
          exact fetchCollect_keys loads curl rest _ hne
    · have hdiff : ¬ (e ++ "_scan" = ep ++ "_scan") := by
        intro h
        apply hne
        rw [h]
        exact List.mem_map_of_mem _ hmem
      simp only [fetchCollect]
      cases hp : process_single_endpoint loads curl e with
      | none => exact ih hndr ep hmem
      | some kd =>
        obtain ⟨kk, d⟩ := kd
        have hkk : kk = e ++ "_scan" := by
          unfold process_single_endpoint at hp
          split at hp
          · exact absurd hp (by simp)
          · cases hc : curl e with
            | none => rw [hc] at hp; exact absurd hp (by simp)
            | some out =>
              rw [hc] at hp
              simp only at hp
              cases hl : loads out with
              | none => rw [hl] at hp; exact absurd hp (by simp)
              | some dd =>
                rw [hl] at hp
                simp only [Option.some.injEq, Prod.mk.injEq] at hp
                exact hp.1.symm
        by_cases ht : kk ≠ "" && d.truthy
        · simp only [ht, if_true, ite_true, lookupKV]
          rw [if_neg (by rw [hkk]; exact hdiff)]
          exact ih hndr ep hmem
        · simp only [ht, if_false, ite_false]
          exact ih hndr ep hmem

/-- The mapped scan keys of the thirteen endpoints are pairwise distinct. -/
theorem apiKeys_nodup : (API_ENDPOINTS.map (fun e => e ++ "_scan")).Nodup := by
  decide

/-- A stub fetch environment in which every endpoint's transport succeeds and
returns the body "0", which parses as the JSON number 0 (valid but falsy). -/
def curl0 : String → Option String := fun _ => some "0"

def loads0 : String → Option Json :=
  fun s => if s = "0" then some (Json.num 0) else none

/-- C6: the bundle built by fetch_scan_data_concurrent maps each endpoint key
"<endpoint>_scan" to exactly the per-endpoint outcome endpointPayload (present
iff transport succeeded, the body parsed as JSON, AND the parsed value is
truthy), carries no other keys, and degrades to the empty mapping, not an
error, when every endpoint fails. -/
theorem C6_fetch_bundle (loads : String → Option Json)
    (curl : String → Option String) :
    (∀ ep ∈ API_ENDPOINTS,
      lookupKV (fetch_scan_data_concurrent loads curl) (ep ++ "_scan")
        = endpointPayload loads curl ep)
    ∧ (∀ k, k ∉ API_ENDPOINTS.map (fun e => e ++ "_scan") →
        lookupKV (fetch_scan_data_concurrent loads curl) k = none)
    ∧ ((∀ ep ∈ API_ENDPOINTS, endpointPayload loads curl ep = none) →
        fetch_scan_data_concurrent loads curl = []) := by
  have hcoll : fetch_scan_data_concurrent loads curl
      = fetchCollect loads curl API_ENDPOINTS := by
    unfold fetch_scan_data_concurrent
    rw [fetch_foldl_collect]
    rfl
  refine ⟨?_, ?_, ?_⟩
  · intro ep hep
    rw [hcoll]
    exact fetchCollect_lookup loads curl API_ENDPOINTS apiKeys_nodup ep hep
  · intro k hk
    rw [hcoll]
    exact fetchCollect_keys loads curl API_ENDPOINTS k hk
  · intro hall
    rw [hcoll]
    have : ∀ l : List String, (∀ ep ∈ l, endpointPayload loads curl ep = none) →
        fetchCollect loads curl l = [] := by
      intro l
      induction l with
      | nil => intro _; rfl
      | cons e rest ih =>
        intro h
        have he := h e (List.mem_cons_self e rest)
        unfold endpointPayload at he
        simp only [fetchCollect]
        cases hp : process_single_endpoint loads curl e with
        | none => exact ih fun ep hep => h ep (List.mem_cons_of_mem e hep)
        | some kd =>
          obtain ⟨k, d⟩ := kd
          rw [hp] at he
          dsimp only at he ⊢
          by_cases ht : k ≠ "" && d.truthy
          · rw [if_pos ht] at he
            exact absurd he (by simp)
          · rw [if_neg ht]
            exact ih fun ep hep => h ep (List.mem_cons_of_mem e hep)
    exact this API_ENDPOINTS hall

/-- C6 witness: in the stub environment the theorem instantiates to a concrete
bundle equation for the dns endpoint and to the empty-bundle fallback. -/
theorem C6_fetch_bundle_witness :
    lookupKV (fetch_scan_data_concurrent loads0 curl0) "dns_scan"
      = endpointPayload loads0 curl0 "dns"
    ∧ fetch_scan_data_concurrent loads0 curl0 = [] :=
  ⟨(C6_fetch_bundle loads0 curl0).1 "dns" (by decide),
   (C6_fetch_bundle loads0 curl0).2.2 (by
     intro ep hep
     fin_cases hep <;> rfl)⟩

/-- C6 counterexample to the claim as stated: with every transport returning
the body "0" — which parses as valid JSON — the bundle nevertheless omits
every endpoint, because the code keeps a payload only when the parsed value
is also Python-truthy (`if scan_key and data:`), and the JSON number 0 is
falsy. -/
theorem C6_fetch_counterexample :
    curl0 "dns" = some "0" ∧ loads0 "0" = some (Json.num 0)
      ∧ lookupKV (fetch_scan_data_concurrent loads0 curl0) "dns_scan" = none :=
  ⟨rfl, rfl, rfl⟩

/-! ### C8: shape of the RDAP payload -/

/-- A bare RDAP object: an empty nameserver list and an empty domain
object, enough to trigger the redundancy and lock deductions when the
scorers actually reach their RDAP phases. -/
def rdapX0 : Json := Json.obj [("nameserver", Json.arr []), ("domain", Json.obj [])]

/-- The all-100 state without a Content_Safety entry. -/
def st100 : ScoreState := initScores false

/-- C8 counterexample: the scorers do NOT normalize a bare RDAP object to
the one-element-list form.  On the bare object rdap_data[0] raises KeyError:
score_whois_pattern aborts with the state untouched (100) where the wrapped
form scores 60, and score_dom_rep aborts right after its mail and method
phases, so its Domain_Reputation differs from the wrapped form's. -/
theorem C8_rdap_shape_counterexample :
    (score_whois_pattern rdapX0 0 st100 = (.error .key, st100)
      ∧ (score_whois_pattern (Json.arr [rdapX0]) 0 st100).2.whoisPattern = 60
      ∧ st100.whoisPattern = 100)
    ∧ ((score_dom_rep (Json.obj []) (Json.obj []) rdapX0 st100).1 = .error .key
      ∧ (score_dom_rep (Json.obj []) (Json.obj []) (Json.arr [rdapX0]) st100).1 = .ok ()
      ∧ (score_dom_rep (Json.obj []) (Json.obj []) rdapX0 st100).2.domainReputation
        ≠ (score_dom_rep (Json.obj []) (Json.obj []) (Json.arr [rdapX0]) st100).2.domainReputation) := by
  refine ⟨⟨?_, ?_, ?_⟩, ?_, ?_, ?_⟩ <;> with_unfolding_all decide

/-- C8 amended: both RDAP consumers read the payload only through
rdap_data[0], so a list payload is normalized to its head (extra elements
are ignored and a one-element list is equivalent to any list with the same
head); a bare object, however, raises KeyError at rdap_data[0]:
score_whois_pattern then returns with the state unchanged, and
score_dom_rep returns the state its mail and method phases produced,
dropping every RDAP deduction. -/
theorem C8_rdap_head_normalization (mail method x : Json) (xs : List Json)
    (kvs : List (String × Json)) (d : ℚ) (st st' : ScoreState) :
    score_dom_rep mail method (Json.arr (x :: xs)) st
      = score_dom_rep mail method (Json.arr [x]) st
    ∧ score_whois_pattern (Json.arr (x :: xs)) d st
      = score_whois_pattern (Json.arr [x]) d st
    ∧ score_whois_pattern (Json.obj kvs) d st = (.error .key, st)
    ∧ (thenDo (domRepMail mail st) (domRepMethod method) = (.ok (), st') →
        score_dom_rep mail method (Json.obj kvs) st = (.error .key, st')) := by
  refine ⟨?_, rfl, rfl, ?_⟩
  · unfold score_dom_rep
    congr 1
  · intro h
    unfold score_dom_rep
    rcases hm : domRepMail mail st with ⟨rm, sm⟩
    rw [hm] at h
    cases rm with
    | error e =>
      simp only [thenDo] at h
      exact absurd h (by simp)
    | ok u =>
      simp only [thenDo] at h ⊢
      rw [h]
      rfl

/-- C8 witness: with empty mail and method payloads the mail/method phases
succeed, and the theorem instantiates to the concrete abort of
score_dom_rep on a bare (empty) RDAP object. -/
theorem C8_rdap_head_normalization_witness :
    score_dom_rep (Json.obj []) (Json.obj []) (Json.obj []) st100
      = (.error .key,
          (thenDo (domRepMail (Json.obj []) st100) (domRepMethod (Json.obj []))).2) :=
  (C8_rdap_head_normalization (Json.obj []) (Json.obj []) Json.null [] [] 0 st100
      (thenDo (domRepMail (Json.obj []) st100) (domRepMethod (Json.obj []))).2).2.2.2
    (by with_unfolding_all rfl)

/-! ### C9: the domain-hopping check and lstrip("www.") -/

/-- The spec's reading of the comparison: strip the literal prefix "www."
from the lower-cased requested domain and final hostname. -/
def stripWwwPrefix (s : String) : String :=
  if strStartsWith s "www." then strDrop s 4 else s

/-- The domain-hopping predicate as the claim states it (literal "www."
prefix stripping on both sides, difference, and no subdomain relation in
either direction). -/
def claimedHopPred (din fu : String) : Bool :=
  let fd := (urlHostname fu).getD ""
  let ci := stripWwwPrefix (strLower din)
  let cf := stripWwwPrefix (strLower fd)
  ci ≠ "" && cf ≠ "" && ci ≠ cf &&
    !(strEndsWith cf ("." ++ ci)) && !(strEndsWith ci ("." ++ cf))

/-- The predicate the code actually applies: Python str.lstrip("www.")
removes the leading run of characters drawn from the set w-dot, not the
literal prefix. -/
def amendedHopPred (din fu : String) : Bool :=
  let fd := (urlHostname fu).getD ""
  let ci := lstripWDot (strLower din)
  let cf := lstripWDot (strLower fd)
  ci ≠ "" && cf ≠ "" && ci ≠ cf &&
    !(strEndsWith cf ("." ++ ci)) && !(strEndsWith ci ("." ++ cf))

/-- An hval payload with a clean two-hop https redirect chain ending at fu
with status 200 and an AES cipher, all seven security headers present, and
the requested domain din. -/
def mkHval (din fu : String) : Json :=
  Json.obj [("item", Json.str din),
            ("security", Json.num 119),
            ("head", Json.arr
              [Json.obj [("url", Json.str "https://start.example/"),
                         ("status", Json.num 301)],
               Json.obj [("url", Json.str fu), ("status", Json.num 200),
                         ("tls", Json.str "TLS_AES_256_GCM_SHA384")]])]

/-- A cert payload whose connection uses TLS 1.3. -/
def cert9 : Json :=
  Json.obj [("connection", Json.obj [("tls_version", Json.str "TLS 1.3")])]

/-- C9 counterexample: requesting "wwexample.com" and landing on
https://example.com/ satisfies the claimed predicate (different registrable
domains, no www. prefix to strip, no subdomain relation), yet
score_conn_sec applies no deduction at all: lstrip("www.") eats the two
leading w characters of "wwexample.com", making both sides compare equal as
"example.com". -/
theorem C9_lstrip_counterexample :
    claimedHopPred "wwexample.com" "https://example.com/" = true
    ∧ score_conn_sec (mkHval "wwexample.com" "https://example.com/") cert9 st100
        = (.ok (), st100) := by
  constructor <;> with_unfolding_all decide

/-- C9 amended: on the clean redirect family mkHval the scorer succeeds and
deducts exactly 15 Connection_Security points exactly when the
character-set-lstrip predicate holds between the requested domain and the
final URL's hostname; in particular no deduction depends on anything but
that predicate. -/
theorem C9_domain_hop_amended (din fu : String)
    (hdin : din ≠ "") (hfu : strStartsWith fu "https" = true) :
    score_conn_sec (mkHval din fu) cert9 st100
      = (.ok (), if amendedHopPred din fu then st100.subConn 15 else st100) := by
  have hfune : fu ≠ "" := by
    intro h
    rw [h] at hfu
    exact absurd hfu (by decide)
  have step : score_conn_sec (mkHval din fu) cert9 st100
      = thenDo (connSecStatusPhase (Json.num 200) (Json.str fu) st100) (fun st =>
        thenDo (connSecCipherPhase (Json.str "TLS_AES_256_GCM_SHA384") st) (fun st =>
        thenDo (connSecHeadersPhase (Json.num 119) st) (fun st =>
        connSecRedirectPhase (mkHval din fu)
          (Json.arr [Json.obj [("url", Json.str "https://start.example/"),
                               ("status", Json.num 301)],
                     Json.obj [("url", Json.str fu), ("status", Json.num 200),
                               ("tls", Json.str "TLS_AES_256_GCM_SHA384")]])
          (Json.str fu) st))) := by
    with_unfolding_all rfl
  have hstatus : connSecStatusPhase (Json.num 200) (Json.str fu) st100
      = (if !(strStartsWith fu "https") then (.ok (), st100.subConn 45)
         else (.ok (), st100)) := by
    with_unfolding_all rfl
  have hciph : ∀ st, connSecCipherPhase (Json.str "TLS_AES_256_GCM_SHA384") st
      = (.ok (), st) := fun st => by with_unfolding_all rfl
  have hhead : ∀ st, connSecHeadersPhase (Json.num 119) st = (.ok (), st) :=
    fun st => by with_unfolding_all rfl
  have hredir : ∀ st, connSecRedirectPhase (mkHval din fu)
      (Json.arr [Json.obj [("url", Json.str "https://start.example/"),
                           ("status", Json.num 301)],
                 Json.obj [("url", Json.str fu), ("status", Json.num 200),
                           ("tls", Json.str "TLS_AES_256_GCM_SHA384")]])
      (Json.str fu) st
      = (.ok (), if domainHopDeduct (Json.str din) (Json.str fu)
                 then st.subConn 15 else st) := fun st => by
    with_unfolding_all rfl
  have hdh : domainHopDeduct (Json.str din) (Json.str fu) = amendedHopPred din fu := by
    unfold domainHopDeduct amendedHopPred
    have h1 : (Json.str din).truthy = true := by
      simp [Json.truthy, hdin]
    have h2 : (Json.str fu).truthy = true := by
      simp [Json.truthy, hfune]
    rw [h1, h2]
    rfl
  rw [step, hstatus, hfu]
  simp only [Bool.not_true, Bool.false_eq_true, if_false]
  simp only [thenDo]
  rw [hciph st100]
  simp only [thenDo]
  rw [hhead st100]
  simp only [thenDo]
  rw [hredir st100, hdh]

/-- C9 witness: landing on the www form of the requested domain incurs no
deduction (both sides lstrip to "example.com"). -/
theorem C9_domain_hop_witness :
    score_conn_sec (mkHval "example.com" "https://www.example.com/") cert9 st100
      = (.ok (), if amendedHopPred "example.com" "https://www.example.com/"
                 then st100.subConn 15 else st100) :=
  C9_domain_hop_amended "example.com" "https://www.example.com/"
    (by decide) (by decide)

/-! ### C2: the final clamp invariant -/

/-- Every clamped value lands in [1, 100]. -/
theorem clamp1to100_bounds (q : ℚ) : 1 ≤ clamp1to100 q ∧ clamp1to100 q ≤ 100 :=
  ⟨le_max_left 1 _, max_le (by norm_num) (min_le_left 100 q)⟩

/-- C2: whatever the scan bundle, scan date, ambient clock and live signals
are — however extreme or malformed — every per-category value in the state
returned by calculate_security_score lies in the closed interval [1, 100]
(Content_Safety, when present, included: its value read with default 1 is
always in [1, 100]). -/
theorem C2_final_clamp (allScans : List (String × Json)) (scanDate nowDate : ℚ)
    (liveSignals : Json) :
    (1 ≤ (calculate_security_score allScans scanDate nowDate liveSignals).1.connectionSecurity
      ∧ (calculate_security_score allScans scanDate nowDate liveSignals).1.connectionSecurity ≤ 100)
    ∧ (1 ≤ (calculate_security_score allScans scanDate nowDate liveSignals).1.certificateHealth
      ∧ (calculate_security_score allScans scanDate nowDate liveSignals).1.certificateHealth ≤ 100)
    ∧ (1 ≤ (calculate_security_score allScans scanDate nowDate liveSignals).1.dnsRecordHealth
      ∧ (calculate_security_score allScans scanDate nowDate liveSignals).1.dnsRecordHealth ≤ 100)
    ∧ (1 ≤ (calculate_security_score allScans scanDate nowDate liveSignals).1.domainReputation
      ∧ (calculate_security_score allScans scanDate nowDate liveSignals).1.domainReputation ≤ 100)
    ∧ (1 ≤ (calculate_security_score allScans scanDate nowDate liveSignals).1.whoisPattern
      ∧ (calculate_security_score allScans scanDate nowDate liveSignals).1.whoisPattern ≤ 100)
    ∧ (1 ≤ (calculate_security_score allScans scanDate nowDate liveSignals).1.ipReputation
      ∧ (calculate_security_score allScans scanDate nowDate liveSignals).1.ipReputation ≤ 100)
    ∧ (1 ≤ (calculate_security_score allScans scanDate nowDate liveSignals).1.credentialSafety
      ∧ (calculate_security_score allScans scanDate nowDate liveSignals).1.credentialSafety ≤ 100)
    ∧ (1 ≤ ((calculate_security_score allScans scanDate nowDate liveSignals).1.contentSafety.getD 1)
      ∧ ((calculate_security_score allScans scanDate nowDate liveSignals).1.contentSafety.getD 1) ≤ 100) := by
  obtain ⟨st0, hst⟩ : ∃ st0,
      (calculate_security_score allScans scanDate nowDate liveSignals).1
        = clampState st0 := ⟨_, rfl⟩
  rw [hst]
  simp only [clampState]
  refine ⟨clamp1to100_bounds _, clamp1to100_bounds _, clamp1to100_bounds _,
    clamp1to100_bounds _, clamp1to100_bounds _, clamp1to100_bounds _,
    clamp1to100_bounds _, ?_⟩
  cases st0.contentSafety with
  | none => exact ⟨by norm_num, by norm_num⟩
  | some v => exact clamp1to100_bounds v

/-! ### C7: scorer isolation (frame property) -/

/-- st with Certificate_Health blanked: two states are equal under eraseCert
iff they agree on every category except Certificate_Health. -/
def eraseCert (st : ScoreState) : ScoreState := { st with certificateHealth := 0 }

def eraseConn (st : ScoreState) : ScoreState := { st with connectionSecurity := 0 }

def eraseDNS (st : ScoreState) : ScoreState := { st with dnsRecordHealth := 0 }

def eraseDR (st : ScoreState) : ScoreState := { st with domainReputation := 0 }

def eraseWhois (st : ScoreState) : ScoreState := { st with whoisPattern := 0 }

def eraseIP (st : ScoreState) : ScoreState := { st with ipReputation := 0 }

def eraseCred (st : ScoreState) : ScoreState := { st with credentialSafety := 0 }

def eraseCS (st : ScoreState) : ScoreState := { st with contentSafety := none }

/-- Sequencing preserves any frame that both parts preserve. -/
theorem thenDo_erase (E : ScoreState → ScoreState) (r : ScorerOut)
    (f : ScoreState → ScorerOut) (st : ScoreState)
    (h1 : E r.2 = E st) (h2 : ∀ s, E (f s).2 = E s) :
    E (thenDo r f).2 = E st := by
  obtain ⟨a, s⟩ := r
  cases a with
  | error e => simpa [thenDo] using h1
  | ok u =>
    have : thenDo (Except.ok u, s) f = f s := rfl
    rw [this, h2 s]
    simpa using h1

theorem certTry_erase (d : Json) (st : ScoreState) :
    eraseCert (certTry d st).2 = eraseCert st := by
  unfold certTry
  repeat' split
  all_goals rfl

theorem certMain_erase (v : Json) (q ta tb : ℚ) (st : ScoreState) :
    eraseCert (certMain v q ta tb st).2 = eraseCert st := by
  unfold certMain
  dsimp only
  have h1 : eraseCert (if q > ta then st.subCert 50 else st) = eraseCert st := by
    split <;> rfl
  set s1 := (if q > ta then st.subCert 50 else st) with hs1
  have h2 : eraseCert (if q < tb then s1.subCert 50 else s1) = eraseCert st := by
    rw [← h1]
    split <;> rfl
  set s2 := (if q < tb then s1.subCert 50 else s1) with hs2
  have h3 : eraseCert (if tdDays ta q > 30 then s2
      else s2.subCert (certGradient (tdDays ta q))) = eraseCert st := by
    rw [← h2]
    split <;> rfl
  set s3 := (if tdDays ta q > 30 then s2
      else s2.subCert (certGradient (tdDays ta q))) with hs3
  repeat' split
  all_goals exact h3

theorem score_cert_health_erase (d : Json) (q : ℚ) (st : ScoreState) :
    eraseCert (score_cert_health d q st).2 = eraseCert st := by
  unfold score_cert_health
  rcases h : certTry d st with ⟨r, st'⟩
  have hf := certTry_erase d st
  rw [h] at hf
  cases r with
  | error e => simpa using hf
  | ok o =>
    cases o with
    | none => simpa using hf
    | some t =>
      obtain ⟨ta, tb, verif⟩ := t
      exact (certMain_erase verif q ta tb st').trans (by simpa using hf)

theorem certCTIssuer_erase (n : Json) (st : ScoreState) :
    eraseCert (certCTIssuer n st).2 = eraseCert st := by
  unfold certCTIssuer
  dsimp only
  repeat' split
  all_goals rfl

theorem score_cert_health_ct_erase (d : Json) (q : ℚ) (st : ScoreState) :
    eraseCert (score_cert_health_ct d q st).2 = eraseCert st := by
  unfold score_cert_health_ct
  dsimp only
  repeat' split
  all_goals first
    | rfl
    | exact (certCTIssuer_erase _ _).trans rfl

theorem score_dns_rec_health_erase (d r : Json) (st : ScoreState) :
    eraseDNS (score_dns_rec_health d r st).2 = eraseDNS st := by
  unfold score_dns_rec_health
  dsimp only
  repeat' split
  all_goals rfl

theorem connSecStatusPhase_erase (a b : Json) (st : ScoreState) :
    eraseConn (connSecStatusPhase a b st).2 = eraseConn st := by
  unfold connSecStatusPhase
  repeat' split
  all_goals rfl

theorem connSecCipherPhase_erase (a : Json) (st : ScoreState) :
    eraseConn (connSecCipherPhase a st).2 = eraseConn st := by
  unfold connSecCipherPhase
  repeat' split
  all_goals rfl

theorem connSecHeadersPhase_erase (a : Json) (st : ScoreState) :
    eraseConn (connSecHeadersPhase a st).2 = eraseConn st := by
  unfold connSecHeadersPhase
  dsimp only
  repeat' split
  all_goals rfl

theorem connSecRedirectPhase_erase (a b c : Json) (st : ScoreState) :
    eraseConn (connSecRedirectPhase a b c st).2 = eraseConn st := by
  unfold connSecRedirectPhase
  dsimp only
  repeat' split
  all_goals rfl

theorem score_conn_sec_erase (h c : Json) (st : ScoreState) :
    eraseConn (score_conn_sec h c st).2 = eraseConn st := by
  unfold score_conn_sec
  dsimp only
  repeat' split
  all_goals first
    | rfl
    | (refine thenDo_erase _ _ _ _ (connSecStatusPhase_erase _ _ _) ?_
       intro s1
       refine thenDo_erase _ _ _ _ (connSecCipherPhase_erase _ _) ?_
       intro s2
       refine thenDo_erase _ _ _ _ (connSecHeadersPhase_erase _ _) ?_
       intro s3
       refine (connSecRedirectPhase_erase _ _ _ _).trans ?_
       first
         | rfl
         | split <;> rfl)

theorem spfStep_erase (a : Json) (st : ScoreState) :
    eraseDR (spfStep a st).2 = eraseDR st := by
  unfold spfStep
  repeat' split
  all_goals rfl

theorem dkimStep_erase (a : Json) (st : ScoreState) :
    eraseDR (dkimStep a st).2 = eraseDR st := by
  unfold dkimStep
  dsimp only
  repeat' split
  all_goals rfl

theorem domRepMail_erase (a : Json) (st : ScoreState) :
    eraseDR (domRepMail a st).2 = eraseDR st := by
  unfold domRepMail
  dsimp only
  repeat' split
  all_goals first
    | rfl
    | (refine thenDo_erase _ _ _ _ ?_ ?_
       · repeat' split
         all_goals rfl
       · intro s1
         repeat' split
         all_goals first
           | rfl
           | (refine thenDo_erase _ _ _ _ (spfStep_erase _ _) ?_
              intro s2
              repeat' split
              all_goals first
                | rfl
                | exact dkimStep_erase _ _))

theorem domRepMethod_erase (a : Json) (st : ScoreState) :
    eraseDR (domRepMethod a st).2 = eraseDR st := by
  unfold domRepMethod
  dsimp only
  repeat' split
  all_goals rfl

theorem domRepRdap_erase (a : Json) (st : ScoreState) :
    eraseDR (domRepRdap a st).2 = eraseDR st := by
  unfold domRepRdap
  dsimp only
  repeat' split
  all_goals rfl

theorem score_dom_rep_erase (a b c : Json) (st : ScoreState) :
    eraseDR (score_dom_rep a b c st).2 = eraseDR st := by
  unfold score_dom_rep
  apply thenDo_erase _ _ _ _ (domRepMail_erase _ _)
  intro s1
  apply thenDo_erase _ _ _ _ (domRepMethod_erase _ _)
  intro s2
  exact domRepRdap_erase _ _

theorem score_dom_rep_redirect_erase (a : Json) (st : ScoreState) :
    eraseDR (score_dom_rep_redirect a st).2 = eraseDR st := by
  unfold score_dom_rep_redirect
  dsimp only
  repeat' split
  all_goals rfl

theorem score_cred_safety_erase (a b : Json) (st : ScoreState) :
    eraseCred (score_cred_safety a b st).2 = eraseCred st := by
  unfold score_cred_safety
  dsimp only
  repeat' split
  all_goals rfl

theorem lockChecks_erase (locks : List String) (sj : Json) (st : ScoreState) :
    eraseWhois (lockChecks locks sj st).2 = eraseWhois st := by
  induction locks generalizing st with
  | nil => rfl
  | cons l rest ih =>
    unfold lockChecks
    split
    · rfl
    · exact (ih _).trans (by split <;> rfl)

theorem regDateStep_erase (r : Option Json) (q : ℚ) (st : ScoreState) :
    eraseWhois (regDateStep r q st).2 = eraseWhois st := by
  unfold regDateStep
  dsimp only
  repeat' split
  all_goals rfl

theorem vcardStep_erase (d : Json) (st : ScoreState) :
    eraseWhois (vcardStep d st).2 = eraseWhois st := by
  unfold vcardStep
  repeat' split
  all_goals rfl

theorem score_whois_pattern_erase (a : Json) (q : ℚ) (st : ScoreState) :
    eraseWhois (score_whois_pattern a q st).2 = eraseWhois st := by
  unfold score_whois_pattern
  dsimp only
  repeat' split
  all_goals first
    | rfl
    | (refine thenDo_erase _ _ _ _ ((lockChecks_erase _ _ _).trans ?_) ?_
       · first
           | rfl
           | split <;> rfl
       · intro s1
         refine thenDo_erase _ _ _ _ (lockChecks_erase _ _ _) ?_
         intro s2
         repeat' split
         all_goals first
           | rfl
           | (refine thenDo_erase _ _ _ _ (regDateStep_erase _ _ _) ?_
              intro s3
              exact vcardStep_erase _ _))

theorem score_ip_rep_erase (a b : Json) (st : ScoreState) :
    eraseIP (score_ip_rep a b st).2 = eraseIP st := by
  unfold score_ip_rep
  dsimp only
  repeat' split
  all_goals rfl

theorem subCS_erase (st st' : ScoreState) (n : ℚ)
    (h : st.subCS n = .ok st') : eraseCS st' = eraseCS st := by
  unfold ScoreState.subCS at h
  split at h
  · cases h
    rfl
  · cases h

theorem csNumCheck_erase (s : Json) (k : String) (t d : ℚ) (st : ScoreState) :
    eraseCS (csNumCheck s k t d st).2 = eraseCS st := by
  unfold csNumCheck
  repeat' split
  all_goals first
    | rfl
    | (rename_i h
       exact subCS_erase _ _ _ h)

theorem csBoolCheck_erase (s : Json) (k : String) (d : ℚ) (st : ScoreState) :
    eraseCS (csBoolCheck s k d st).2 = eraseCS st := by
  unfold csBoolCheck
  repeat' split
  all_goals first
    | rfl
    | (rename_i h
       exact subCS_erase _ _ _ h)

theorem csPasswordCheck_erase (s : Json) (st : ScoreState) :
    eraseCS (csPasswordCheck s st).2 = eraseCS st := by
  unfold csPasswordCheck
  repeat' split
  all_goals first
    | rfl
    | (rename_i h
       exact subCS_erase _ _ _ h)

theorem score_content_safety_erase (s : Json) (st : ScoreState) :
    eraseCS (score_content_safety s st).2 = eraseCS st := by
  unfold score_content_safety
  split
  · rfl
  · apply thenDo_erase _ _ _ _ (csNumCheck_erase _ _ _ _ _); intro a1
    apply thenDo_erase _ _ _ _ (csNumCheck_erase _ _ _ _ _); intro a2
    apply thenDo_erase _ _ _ _ (csNumCheck_erase _ _ _ _ _); intro a3
    apply thenDo_erase _ _ _ _ (csBoolCheck_erase _ _ _ _); intro a4
    apply thenDo_erase _ _ _ _ (csPasswordCheck_erase _ _); intro a5
    apply thenDo_erase _ _ _ _ (csNumCheck_erase _ _ _ _ _); intro a6
    apply thenDo_erase _ _ _ _ (csNumCheck_erase _ _ _ _ _); intro a7
    apply thenDo_erase _ _ _ _ (csNumCheck_erase _ _ _ _ _); intro a8
    apply thenDo_erase _ _ _ _ (csNumCheck_erase _ _ _ _ _); intro a9
    apply thenDo_erase _ _ _ _ (csNumCheck_erase _ _ _ _ _); intro a10
    apply thenDo_erase _ _ _ _ (csNumCheck_erase _ _ _ _ _); intro a11
    apply thenDo_erase _ _ _ _ (csNumCheck_erase _ _ _ _ _); intro a12
    exact csNumCheck_erase _ _ _ _ _

/-- C7: each component scorer writes only its own category: whatever the
inputs and however the scorer terminates (normal return or an exception
caught by the calculate_security_score try blocks, with its partial
mutations kept), the resulting state agrees with the starting state on
every category the scorer does not own — erasing the owned category makes
result and start literally equal. -/
theorem C7_scorer_isolation (j1 j2 j3 : Json) (q : ℚ) (st : ScoreState) :
    eraseCert (score_cert_health j1 q st).2 = eraseCert st
    ∧ eraseCert (score_cert_health_ct j1 q st).2 = eraseCert st
    ∧ eraseDNS (score_dns_rec_health j1 j2 st).2 = eraseDNS st
    ∧ eraseConn (score_conn_sec j1 j2 st).2 = eraseConn st
    ∧ eraseDR (score_dom_rep j1 j2 j3 st).2 = eraseDR st
    ∧ eraseDR (score_dom_rep_redirect j1 st).2 = eraseDR st
    ∧ eraseCred (score_cred_safety j1 j2 st).2 = eraseCred st
    ∧ eraseWhois (score_whois_pattern j1 q st).2 = eraseWhois st
    ∧ eraseIP (score_ip_rep j1 j2 st).2 = eraseIP st
    ∧ eraseCS (score_content_safety j1 st).2 = eraseCS st :=
  ⟨score_cert_health_erase j1 q st, score_cert_health_ct_erase j1 q st,
   score_dns_rec_health_erase j1 j2 st, score_conn_sec_erase j1 j2 st,
   score_dom_rep_erase j1 j2 j3 st, score_dom_rep_redirect_erase j1 st,
   score_cred_safety_erase j1 j2 st, score_whois_pattern_erase j1 q st,
   score_ip_rep_erase j1 j2 st, score_content_safety_erase j1 st⟩

/-! ### C5: omitted categories and the aggregator weighting -/

/-- The state accumulated by the first seven scorer invocations of
calculate_security_score (cert, dns, conn, dom_rep, cred, whois, ip). -/
def preScores (allScans : List (String × Json)) (scanDate : ℚ)
    (liveSignals : Json) : ScoreState :=
  (score_ip_rep ((lookupKV allScans "firewall_scan").getD (Json.obj []))
    ((lookupKV allScans "ipinfo_scan").getD (Json.obj []))
    (tryRun1 allScans "rdap_scan" (fun d => score_whois_pattern d scanDate)
      (tryRun2 allScans "cert_scan" "hval_scan" score_cred_safety
        (tryRun3 allScans "mail_scan" "method_scan" "rdap_scan" score_dom_rep
          (tryRun2 allScans "hval_scan" "cert_scan" score_conn_sec
            (tryRun2 allScans "dns_scan" "rdap_scan" score_dns_rec_health
              (tryRun1 allScans "cert_scan" (fun d => score_cert_health d scanDate)
                (initScores (liveSignals.truthy ||
                  (lookupKV allScans "webpage_inspect_scan").isSome))))))))).2

/-- The guarded CT-log step of calculate_security_score. -/
def ctStep (allScans : List (String × Json)) (nowDate : ℚ)
    (st : ScoreState) : ScoreState :=
  if (lookupKV allScans "crtsh_scan").isSome then
    (score_cert_health_ct ((lookupKV allScans "crtsh_scan").getD Json.null) nowDate st).2
  else st

/-- The guarded redirect step of calculate_security_score. -/
def redirStep (allScans : List (String × Json)) (st : ScoreState) : ScoreState :=
  if (lookupKV allScans "redirect_scan").isSome then
    (score_dom_rep_redirect ((lookupKV allScans "redirect_scan").getD Json.null) st).2
  else st

theorem calcSS_shape (allScans : List (String × Json)) (scanDate nowDate : ℚ)
    (liveSignals : Json) :
    (calculate_security_score allScans scanDate nowDate liveSignals).1
      = clampState (fakeParkedPhase allScans (contentPhase allScans liveSignals
          (redirStep allScans
            (ctStep allScans nowDate (preScores allScans scanDate liveSignals))))) := rfl

theorem score_cert_health_dr (d : Json) (q : ℚ) (s : ScoreState) :
    (score_cert_health d q s).2.domainReputation = s.domainReputation := by
  have h := congrArg ScoreState.domainReputation (score_cert_health_erase d q s)
  exact h

theorem score_cert_health_ct_dr (d : Json) (q : ℚ) (s : ScoreState) :
    (score_cert_health_ct d q s).2.domainReputation = s.domainReputation := by
  have h := congrArg ScoreState.domainReputation (score_cert_health_ct_erase d q s)
  exact h

theorem score_dns_rec_health_dr (a b : Json) (s : ScoreState) :
    (score_dns_rec_health a b s).2.domainReputation = s.domainReputation := by
  have h := congrArg ScoreState.domainReputation (score_dns_rec_health_erase a b s)
  exact h

theorem score_conn_sec_dr (a b : Json) (s : ScoreState) :
    (score_conn_sec a b s).2.domainReputation = s.domainReputation := by
  have h := congrArg ScoreState.domainReputation (score_conn_sec_erase a b s)
  exact h

theorem score_cred_safety_dr (a b : Json) (s : ScoreState) :
    (score_cred_safety a b s).2.domainReputation = s.domainReputation := by
  have h := congrArg ScoreState.domainReputation (score_cred_safety_erase a b s)
  exact h

theorem score_content_safety_dr (a : Json) (s : ScoreState) :
    (score_content_safety a s).2.domainReputation = s.domainReputation := by
  have h := congrArg ScoreState.domainReputation (score_content_safety_erase a s)
  exact h

theorem score_ip_rep_dr (a b : Json) (s : ScoreState) :
    (score_ip_rep a b s).2.domainReputation = s.domainReputation := by
  have h := congrArg ScoreState.domainReputation (score_ip_rep_erase a b s)
  exact h

theorem tryRun1_absent (allScans : List (String × Json)) (k : String)
    (f : Json → ScoreState → ScorerOut) (st : ScoreState)
    (h : lookupKV allScans k = none) : tryRun1 allScans k f st = st := by
  unfold tryRun1
  rw [h]

theorem tryRun3_absent3 (allScans : List (String × Json)) (k1 k2 k3 : String)
    (f : Json → Json → Json → ScoreState → ScorerOut) (st : ScoreState)
    (h : lookupKV allScans k3 = none) : tryRun3 allScans k1 k2 k3 f st = st := by
  unfold tryRun3
  split
  · rfl
  · split
    · rfl
    · rw [h]

theorem tryRun1_dr (allScans : List (String × Json)) (k : String)
    (f : Json → ScoreState → ScorerOut) (st : ScoreState)
    (hf : ∀ d s, (f d s).2.domainReputation = s.domainReputation) :
    (tryRun1 allScans k f st).domainReputation = st.domainReputation := by
  unfold tryRun1
  split
  · rfl
  · exact hf _ _

theorem tryRun2_dr (allScans : List (String × Json)) (k1 k2 : String)
    (f : Json → Json → ScoreState → ScorerOut) (st : ScoreState)
    (hf : ∀ a b s, (f a b s).2.domainReputation = s.domainReputation) :
    (tryRun2 allScans k1 k2 f st).domainReputation = st.domainReputation := by
  unfold tryRun2
  split
  · rfl
  · split
    · rfl
    · exact hf _ _ _

theorem contentPhase_dr (allScans : List (String × Json)) (l : Json)
    (st : ScoreState) :
    (contentPhase allScans l st).domainReputation = st.domainReputation := by
  unfold contentPhase
  dsimp only
  repeat' split
  all_goals first
    | rfl
    | exact score_content_safety_dr _ _

theorem fakeParkedPhase_no_redirect (allScans : List (String × Json))
    (st : ScoreState) (hd : lookupKV allScans "redirect_scan" = none) :
    fakeParkedPhase allScans st = st := by
  unfold fakeParkedPhase
  dsimp only
  rw [hd]
  split <;> rfl

theorem ctStep_dr (allScans : List (String × Json)) (q : ℚ) (st : ScoreState) :
    (ctStep allScans q st).domainReputation = st.domainReputation := by
  unfold ctStep
  split
  · exact score_cert_health_ct_dr _ _ _
  · rfl

theorem redirStep_absent (allScans : List (String × Json)) (st : ScoreState)
    (hd : lookupKV allScans "redirect_scan" = none) :
    redirStep allScans st = st := by
  unfold redirStep
  rw [hd]
  rfl

theorem preScores_dr (allScans : List (String × Json)) (scanDate : ℚ)
    (liveSignals : Json) (hr : lookupKV allScans "rdap_scan" = none) :
    (preScores allScans scanDate liveSignals).domainReputation = 100 := by
  unfold preScores
  rw [score_ip_rep_dr]
  rw [tryRun1_absent _ _ _ _ hr]
  rw [tryRun2_dr _ _ _ _ _ score_cred_safety_dr]
  rw [tryRun3_absent3 _ _ _ _ _ _ hr]
  rw [tryRun2_dr _ _ _ _ _ score_conn_sec_dr]
  rw [tryRun2_dr _ _ _ _ _ score_dns_rec_health_dr]
  rw [tryRun1_dr _ _ _ _ (fun d s => score_cert_health_dr d scanDate s)]
  rfl

theorem calcSS_dr100 (allScans : List (String × Json)) (scanDate nowDate : ℚ)
    (liveSignals : Json) (hr : lookupKV allScans "rdap_scan" = none)
    (hd : lookupKV allScans "redirect_scan" = none) :
    (calculate_security_score allScans scanDate nowDate liveSignals).1.domainReputation
      = 100 := by
  rw [calcSS_shape]
  show clamp1to100 (fakeParkedPhase allScans (contentPhase allScans liveSignals
    (redirStep allScans
      (ctStep allScans nowDate (preScores allScans scanDate liveSignals))))).domainReputation = 100
  rw [fakeParkedPhase_no_redirect _ _ hd, contentPhase_dr,
      redirStep_absent _ _ hd, ctStep_dr, preScores_dr _ _ _ hr]
  norm_num [clamp1to100]

theorem clampState_toList_pos (st : ScoreState) :
    ∀ p ∈ (clampState st).toList, 0 < p.2 := by
  have hb : ∀ q : ℚ, 0 < clamp1to100 q := fun q =>
    lt_of_lt_of_le one_pos (clamp1to100_bounds q).1
  intro p hp
  cases hcs : st.contentSafety with
  | none =>
    simp only [ScoreState.toList, clampState, hcs, Option.map_none', List.append_nil,
      List.mem_cons, List.not_mem_nil, or_false] at hp
    rcases hp with h | h | h | h | h | h | h <;> subst h <;> exact hb _
  | some v =>
    simp only [ScoreState.toList, clampState, hcs, Option.map_some', List.mem_append,
      List.mem_cons, List.not_mem_nil, or_false, List.mem_singleton] at hp
    rcases hp with (h | h | h | h | h | h | h) | h <;> subst h <;> exact hb _

theorem drWeighting (st : ScoreState) (h : st.domainReputation = 100) :
    overlapWeightSum WEIGHTS st.toList
      = 20 + overlapWeightSum WEIGHTS
          (st.toList.filter (fun p => p.1 ≠ "Domain_Reputation"))
    ∧ overlapRatioSum WEIGHTS st.toList
      = 20 / 100 + overlapRatioSum WEIGHTS
          (st.toList.filter (fun p => p.1 ≠ "Domain_Reputation")) := by
  cases hcs : st.contentSafety with
  | none =>
    have hlist : st.toList = [("Connection_Security", st.connectionSecurity),
        ("Certificate_Health", st.certificateHealth),
        ("DNS_Record_Health", st.dnsRecordHealth),
        ("Domain_Reputation", st.domainReputation),
        ("WHOIS_Pattern", st.whoisPattern),
        ("IP_Reputation", st.ipReputation),
        ("Credential_Safety", st.credentialSafety)] := by
      simp [ScoreState.toList, hcs]
    rw [hlist, h]
    constructor
    · show (14:ℚ) + (12 + (10 + (20 + (6 + (8 + (12 + 0))))))
        = 20 + (14 + (12 + (10 + (6 + (8 + (12 + 0))))))
      norm_num
    · show (14:ℚ) / st.connectionSecurity + (12 / st.certificateHealth
          + (10 / st.dnsRecordHealth + (20 / 100 + (6 / st.whoisPattern
          + (8 / st.ipReputation + (12 / st.credentialSafety + 0))))))
        = 20 / 100 + ((14:ℚ) / st.connectionSecurity + (12 / st.certificateHealth
          + (10 / st.dnsRecordHealth + (6 / st.whoisPattern
          + (8 / st.ipReputation + (12 / st.credentialSafety + 0))))))
      ring
  | some v =>
    have hlist : st.toList = [("Connection_Security", st.connectionSecurity),
        ("Certificate_Health", st.certificateHealth),
        ("DNS_Record_Health", st.dnsRecordHealth),
        ("Domain_Reputation", st.domainReputation),
        ("WHOIS_Pattern", st.whoisPattern),
        ("IP_Reputation", st.ipReputation),
        ("Credential_Safety", st.credentialSafety),
        ("Content_Safety", v)] := by
      simp [ScoreState.toList, hcs]
    rw [hlist, h]
    constructor
    · show (14:ℚ) + (12 + (10 + (20 + (6 + (8 + (12 + (18 + 0)))))))
        = 20 + (14 + (12 + (10 + (6 + (8 + (12 + (18 + 0)))))))
      norm_num
    · show (14:ℚ) / st.connectionSecurity + (12 / st.certificateHealth
          + (10 / st.dnsRecordHealth + (20 / 100 + (6 / st.whoisPattern
          + (8 / st.ipReputation + (12 / st.credentialSafety + (18 / v + 0)))))))
        = 20 / 100 + ((14:ℚ) / st.connectionSecurity + (12 / st.certificateHealth
          + (10 / st.dnsRecordHealth + (6 / st.whoisPattern
          + (8 / st.ipReputation + (12 / st.credentialSafety + (18 / v + 0)))))))
      ring

/-- C5 amended: a bundle missing the rdap and redirect endpoints still yields
a best-effort result, but the starved category is NOT absent from the
weighting: Domain_Reputation stays at its initial 100, the aggregator input
still carries its entry, dropping it would change sum_of_weights by exactly
its weight 20 and sum_of_ratios by exactly 20/100, and the fail-fast loop
completes with exactly those sums (every clamped entry is positive). -/
theorem C5_omitted_category_still_weighted (allScans : List (String × Json))
    (scanDate nowDate : ℚ) (liveSignals : Json)
    (hr : lookupKV allScans "rdap_scan" = none)
    (hd : lookupKV allScans "redirect_scan" = none) :
    (calculate_security_score allScans scanDate nowDate liveSignals).1.domainReputation = 100
    ∧ overlapWeightSum WEIGHTS
        (calculate_security_score allScans scanDate nowDate liveSignals).1.toList
      = 20 + overlapWeightSum WEIGHTS
          (((calculate_security_score allScans scanDate nowDate liveSignals).1.toList).filter
            (fun p => p.1 ≠ "Domain_Reputation"))
    ∧ overlapRatioSum WEIGHTS
        (calculate_security_score allScans scanDate nowDate liveSignals).1.toList
      = 20 / 100 + overlapRatioSum WEIGHTS
          (((calculate_security_score allScans scanDate nowDate liveSignals).1.toList).filter
            (fun p => p.1 ≠ "Domain_Reputation"))
    ∧ finalLoop WEIGHTS
        (calculate_security_score allScans scanDate nowDate liveSignals).1.toList 0 0
      = some (overlapWeightSum WEIGHTS
                (calculate_security_score allScans scanDate nowDate liveSignals).1.toList,
              overlapRatioSum WEIGHTS
                (calculate_security_score allScans scanDate nowDate liveSignals).1.toList) := by
  have h100 := calcSS_dr100 allScans scanDate nowDate liveSignals hr hd
  have hw := drWeighting _ h100
  refine ⟨h100, hw.1, hw.2, ?_⟩
  obtain ⟨st0, hst⟩ : ∃ st0,
      (calculate_security_score allScans scanDate nowDate liveSignals).1
        = clampState st0 := ⟨_, rfl⟩
  rw [hst]
  have hfl := finalLoop_pos WEIGHTS ((clampState st0).toList) 0 0
    (fun p hp _ => clampState_toList_pos st0 p hp)
  rw [hfl]
  simp only [zero_add]

/-- A non-empty bundle carrying only a dns scan: the endpoints feeding
Domain_Reputation (mail, method, rdap) are all absent. -/
def c5Bundle : List (String × Json) :=
  [("dns_scan", Json.obj [("rcode", Json.num 0),
    ("a", Json.arr [Json.str "1.2.3.4", Json.str "5.6.7.8"]),
    ("aaaa", Json.arr [])])]

/-- C5 witness: the amended theorem at the concrete dns-only bundle. -/
theorem C5_omitted_category_witness :
    (calculate_security_score c5Bundle 0 0 Json.null).1.domainReputation = 100
    ∧ overlapWeightSum WEIGHTS (calculate_security_score c5Bundle 0 0 Json.null).1.toList
      = 20 + overlapWeightSum WEIGHTS
          (((calculate_security_score c5Bundle 0 0 Json.null).1.toList).filter
            (fun p => p.1 ≠ "Domain_Reputation"))
    ∧ overlapRatioSum WEIGHTS (calculate_security_score c5Bundle 0 0 Json.null).1.toList
      = 20 / 100 + overlapRatioSum WEIGHTS
          (((calculate_security_score c5Bundle 0 0 Json.null).1.toList).filter
            (fun p => p.1 ≠ "Domain_Reputation"))
    ∧ finalLoop WEIGHTS (calculate_security_score c5Bundle 0 0 Json.null).1.toList 0 0
      = some (overlapWeightSum WEIGHTS (calculate_security_score c5Bundle 0 0 Json.null).1.toList,
              overlapRatioSum WEIGHTS (calculate_security_score c5Bundle 0 0 Json.null).1.toList) :=
  C5_omitted_category_still_weighted c5Bundle 0 0 Json.null rfl rfl

/-- C5 counterexample to the claim as stated: with mail, method and rdap all
missing from a non-empty bundle, Domain_Reputation is not absent from the
weighting — it sits at 100 and the aggregator sums include its weight 20 and
ratio 20/100: the sums drop from (82, 41/50) to (62, 31/50) when its entry
is removed, while the run still aggregates to 100 (best effort, no error). -/
theorem C5_counterexample :
    lookupKV c5Bundle "mail_scan" = none
    ∧ lookupKV c5Bundle "method_scan" = none
    ∧ lookupKV c5Bundle "rdap_scan" = none
    ∧ c5Bundle.length = 1
    ∧ (calculate_security_score c5Bundle 0 0 Json.null).1.domainReputation = 100
    ∧ finalLoop WEIGHTS (calculate_security_score c5Bundle 0 0 Json.null).1.toList 0 0
        = some (82, 41 / 50)
    ∧ finalLoop WEIGHTS
        ((calculate_security_score c5Bundle 0 0 Json.null).1.toList.filter
          (fun p => p.1 ≠ "Domain_Reputation")) 0 0
        = some (62, 31 / 50)
    ∧ pyRound2 (calculate_final_score WEIGHTS
        (calculate_security_score c5Bundle 0 0 Json.null).1.toList) = 100 := by
  refine ⟨rfl, rfl, rfl, rfl, ?_, ?_, ?_, ?_⟩ <;> with_unfolding_all decide

end NetStar
